import Mathlib

/-!
Verification of the cashflow-planner projection engine and ledger write paths.

The TypeScript source is shallowly embedded: SQL reads become list filters
over an explicit database state, `Date.UTC` calendar arithmetic becomes
arithmetic on year/month/day triples (with the same overflow normalization
the JS `Date` constructor performs), monetary `float8` amounts become
rationals, and the `BEGIN`/`COMMIT`/`ROLLBACK` write paths become pure
state transformers parameterized by which low-level write fails.
-/

/-- Monetary amounts (`numeric`/`float8` in the source) are modelled as
rationals; every claim under verification is an exact algebraic identity
that the source computes with the same additions in the same order. -/
abbrev Money : Type := ℚ

/-- A calendar date, the `YYYY-MM-DD` of the source. For canonical
(zero-padded) date strings, JS lexicographic string comparison coincides
with lexicographic comparison of the (year, month, day) triple, which is
how comparisons are modelled here. -/
structure Ymd where
  y : Int
  m : Nat
  d : Nat
deriving DecidableEq, Repr

/-- Lexicographic strict order on dates; equals `<` on the corresponding
canonical date strings. -/
def Ymd.ltb (a b : Ymd) : Bool :=
  if a.y = b.y then
    if a.m = b.m then decide (a.d < b.d) else decide (a.m < b.m)
  else decide (a.y < b.y)

/-- Lexicographic non-strict order on dates. -/
def Ymd.leb (a b : Ymd) : Bool := a == b || Ymd.ltb a b

/-- Gregorian leap-year rule, as `Date.UTC` applies it. -/
def isLeapYear (y : Int) : Bool :=
  y % 4 == 0 && (y % 100 != 0 || y % 400 == 0)

/-- Number of days in a month (month is 1-based). Out-of-range months
default to 31; no call site reaches them. -/
def daysInMonth (y : Int) (m : Nat) : Nat :=
  if m = 2 then (if isLeapYear y then 29 else 28)
  else if m = 4 ∨ m = 6 ∨ m = 9 ∨ m = 11 then 30
  else 31

/-- `Date.UTC(y, m0)` month-overflow normalization: a 0-based month index
outside 0..11 rolls the year, exactly as the JS `Date` constructor does.
Returns (year, 0-based month in 0..11). -/
def normYM (y : Int) (m0 : Int) : Int × Nat :=
  (y + Int.ediv m0 12, (Int.emod m0 12).toNat)

/-- Day-overflow normalization (the `setUTCDate` / `Date.UTC` day roll):
while the day exceeds the month length, subtract the month length and move
to the next month. Structural fuel recursion; a fuel of `d` always
suffices because every step removes at least 28 days. -/
def rollForwardFuel : Nat → Int → Nat → Nat → Ymd
  | 0, y, m, d => ⟨y, m, d⟩
  | fuel + 1, y, m, d =>
    if d ≤ daysInMonth y m then ⟨y, m, d⟩
    else if 12 ≤ m then rollForwardFuel fuel (y + 1) 1 (d - daysInMonth y m)
    else rollForwardFuel fuel y (m + 1) (d - daysInMonth y m)

/-- `d0.setUTCDate(n)` for a date in year `y`, month `m` (1-based): places
day number `n` counting from the 1st of that month, rolling into following
months on overflow. Call sites always pass `1 ≤ n`. -/
def setUTCDateRoll (y : Int) (m : Nat) (n : Nat) : Ymd :=
  rollForwardFuel n y m n

/-- `new Date(Date.UTC(year, monthIndex0, day)).toISOString().slice(0,10)`:
normalizes the 0-based month index, then the day. -/
def dateUTC (year : Int) (monthIndex0 : Int) (day : Nat) : Ymd :=
  let ym := normYM year monthIndex0
  setUTCDateRoll ym.1 (ym.2 + 1) day

/-- `lastDayOfMonthUTC` of the source: `new Date(Date.UTC(y, m0+1, 0))
.getUTCDate()`, i.e. the length of the (normalized) month `m0`. -/
def lastDayOfMonthUTC (year : Int) (monthIndex0 : Int) : Nat :=
  let ym := normYM year monthIndex0
  daysInMonth ym.1 (ym.2 + 1)

/-- Result record of `monthBounds`. -/
structure MonthBounds where
  startDate : Ymd
  endDateExclusive : Ymd
  year : Int
  monthIndex0 : Int
deriving DecidableEq, Repr

/-- Split a character list at every occurrence of `sep` — the semantics
of `String.split` on a one-character separator. -/
def splitOnChar (sep : Char) : List Char → List (List Char)
  | [] => [[]]
  | c :: rest =>
    let r := splitOnChar sep rest
    if c == sep then [] :: r
    else
      match r with
      | [] => [[c]]
      | g :: gs => (c :: g) :: gs

/-- `Number(s)` on the digit strings produced by the month regex (other
inputs sit behind the route regex guard, where the source would produce
`NaN`): fold base-10 digits, 0 on the empty string. -/
def jsNumberChars (cs : List Char) : Nat :=
  cs.foldl (fun acc c => acc * 10 + (c.toNat - 48)) 0

/-- `monthBounds` of `plan.ts`/`actual.ts`: split `YYYY-MM`, build the
first day of the month and of the next month via `Date.UTC` (which
silently normalizes out-of-range month numbers such as `13` or `00`). -/
def monthBounds (month : String) : MonthBounds :=
  let parts := splitOnChar '-' month.data
  let y : Int := (jsNumberChars (parts.getD 0 []) : Int)
  let m : Int := (jsNumberChars (parts.getD 1 []) : Int)
  let s := normYM y (m - 1)
  let e := normYM y m
  { startDate := ⟨s.1, s.2 + 1, 1⟩
    endDateExclusive := ⟨e.1, e.2 + 1, 1⟩
    year := y
    monthIndex0 := m - 1 }

/-- Stable insertion: the new element goes after every existing element
`le`-below-or-equal to it, so equal keys keep their original order —
matching SQL `ORDER BY` ties and JS stable `Array.sort`. -/
def insertSortedBy (le : α → α → Bool) (x : α) : List α → List α
  | [] => [x]
  | z :: zs => if le z x then z :: insertSortedBy le x zs else x :: z :: zs

/-- Stable sort by a boolean total preorder. -/
def stableSortBy (le : α → α → Bool) (l : List α) : List α :=
  l.foldl (fun acc x => insertSortedBy le x acc) []

/-! ## Data model -/

/-- An `accounts` row (the columns the engine reads). -/
structure Account where
  id : String
  user_id : String
  name : String
  initial_balance : Money
deriving DecidableEq, Repr

/-- Transfer leg marker. -/
inductive TransferLeg | OUT | IN
deriving DecidableEq, Repr

/-- A `transactions` row. `created_at` is the insertion serial; SQL
`ORDER BY created_at` is order on this field. -/
structure Txn where
  id : String
  user_id : String
  account_id : Option String
  from_account_id : Option String
  to_account_id : Option String
  amount : Money
  description : String
  category : Option String
  tags : List String
  is_business : Bool
  is_tax_relevant : Bool
  tx_date : Ymd
  transfer_group_id : Option String
  transfer_leg : Option TransferLeg
  invoice_id : Option String
  created_at : Nat
deriving DecidableEq, Repr

/-- Invoice lifecycle status. -/
inductive InvoiceStatus | planned | sent | paid | voided
deriving DecidableEq, Repr

/-- An `invoices` row (the columns the engine reads/writes). The `void`
status of the source is spelled `voided` here. -/
structure Invoice where
  id : String
  user_id : String
  customer_name : String
  amount : Money
  currency : String
  expected_payment_date : Option Ymd
  status : InvoiceStatus
  paid_at : Option Ymd
  paid_tx_id : Option String
  created_at : Nat
deriving DecidableEq, Repr

/-- A `salary_settings` row. -/
structure SalarySetting where
  id : String
  user_id : String
  payout_day : Int
  net_amount : Money
  is_active : Bool
  created_at : Nat
deriving DecidableEq, Repr

/-- Recurring-rule interval type. -/
inductive RecurInterval | WEEKLY | MONTHLY | YEARLY
deriving DecidableEq, Repr

/-- A `recurring` row. `day_of_month` is nullable; the source also treats
a stored `0` as absent (`if (!dom) continue`). -/
structure RecurringRule where
  id : String
  user_id : String
  account_id : String
  amount : Money
  description : String
  category : Option String
  interval_type : RecurInterval
  day_of_month : Option Nat
  start_date : Ymd
  end_date : Option Ymd
deriving DecidableEq, Repr

/-- Budget period type. -/
inductive BudgetPeriod | WEEKLY | MONTHLY
deriving DecidableEq, Repr

/-- A `budgets` row. -/
structure Budget where
  id : String
  user_id : String
  name : String
  category : String
  planned_amount : Money
  used_amount : Money
  period_type : BudgetPeriod
  period_start : Ymd
  period_end : Ymd
  account_id : Option String
deriving DecidableEq, Repr

/-- The persistent store the engine reads and writes. `nextSerial` feeds
generated row ids and `created_at` ordinals. -/
structure Db where
  accounts : List Account
  transactions : List Txn
  invoices : List Invoice
  salary_settings : List SalarySetting
  recurring : List RecurringRule
  budgets : List Budget
  nextSerial : Nat
deriving DecidableEq, Repr

/-! ## Actual reconciler (`lib/cashflow/actual.ts`) -/

/-- Income/expense split of a signed amount (`classify` of the source):
non-negative amounts are income, negative amounts contribute their
absolute value to expense. -/
structure Classified where
  income : Money
  expense : Money
deriving DecidableEq, Repr

/-- `classify` of `actual.ts`. -/
def classify (amount : Money) : Classified :=
  if 0 ≤ amount then ⟨amount, 0⟩ else ⟨0, -amount⟩

/-- The `account_id = $4 OR from_account_id = $4 OR to_account_id = $4`
filter (SQL `NULL` compares unequal to everything). -/
def touchesAccount (acc : String) (t : Txn) : Bool :=
  t.account_id == some acc || t.from_account_id == some acc ||
    t.to_account_id == some acc

/-- Sum of signed amounts (`reduce((s, l) => s + l.amount, 0)` and the
SQL `SUM(amount)`). -/
def sumAmounts (l : List Txn) : Money :=
  l.foldl (fun s t => s + t.amount) 0

/-- `ORDER BY tx_date ASC, created_at ASC` key. -/
def txDateCreatedLe (a b : Txn) : Bool :=
  Ymd.ltb a.tx_date b.tx_date ||
    (a.tx_date == b.tx_date && decide (a.created_at ≤ b.created_at))

/-- The month transaction query of `buildCashflowActualMonth`: the user's
rows with `startDate <= tx_date < endDateExclusive`, optionally filtered
to rows touching `accountId`, ordered by `(tx_date, created_at)`. -/
def actualMonthRows (db : Db) (userId : String) (startDate endE : Ymd)
    (accountId : Option String) : List Txn :=
  stableSortBy txDateCreatedLe
    (db.transactions.filter (fun t =>
      t.user_id == userId && Ymd.leb startDate t.tx_date &&
        Ymd.ltb t.tx_date endE &&
        (match accountId with
         | none => true
         | some a => touchesAccount a t)))

/-- Append a row to its transfer group, creating the group at the end on
first sight — the JS `Map` insertion-order semantics. -/
def pushGroup (gid : String) (t : Txn) :
    List (String × List Txn) → List (String × List Txn)
  | [] => [(gid, [t])]
  | (g, ts) :: rest =>
    if g == gid then (g, ts ++ [t]) :: rest else (g, ts) :: pushGroup gid t rest

/-- Partition the month rows into transfer groups (keyed by
`transfer_group_id`, groups in first-seen order, legs in row order) and
normal transactions (row order). -/
def partitionTransfers : List Txn → List (String × List Txn) × List Txn
  | [] => ([], [])
  | r :: rest =>
    let p := partitionTransfers rest
    match r.transfer_group_id with
    | some g => (pushGroup g r p.1, p.2)
    | none => (p.1, r :: p.2)

/-- A day item of the actual view: a normal transaction, or a grouped
transfer with its legs and net. -/
inductive ActualItem
  | tx (t : Txn)
  | transfer (transferGroupId : String) (date : Ymd) (title : String)
      (legs : List Txn) (net : Money)
deriving DecidableEq, Repr

/-- A `CashflowActualDay`. -/
structure ActualDay where
  date : Ymd
  income : Money
  expense : Money
  net : Money
  items : List ActualItem
  runningBalance : Money
deriving DecidableEq, Repr

/-- Totals triple. -/
structure Totals where
  income : Money
  expense : Money
  net : Money
deriving DecidableEq, Repr

/-- Pre-created zeroed day list, one entry per calendar day of the month
(the `for (let d = 1; d <= last; d++)` loop). -/
def initActualDays (year : Int) (monthIndex0 : Int) : List ActualDay :=
  (List.range (lastDayOfMonthUTC year monthIndex0)).map (fun i =>
    { date := dateUTC year monthIndex0 (i + 1)
      income := 0, expense := 0, net := 0, items := [], runningBalance := 0 })

/-- Add one normal transaction to the day carrying its date (a silent
no-op when no pre-created day matches, as with the `if (!day) continue`
guard). -/
def addNormalTx (t : Txn) (days : List ActualDay) : List ActualDay :=
  days.map (fun day =>
    if day.date == t.tx_date then
      let c := classify t.amount
      { day with
        income := day.income + c.income
        expense := day.expense + c.expense
        net := day.net + t.amount
        items := day.items ++ [ActualItem.tx t] }
    else day)

/-- The per-day effect of one transfer group: the day's income/expense
move by `classify` of the group's NET (never by the gross legs), the net
moves by the group net, and one grouped item is appended (legs sorted by
amount, stably). -/
def transferDayUpdate (gid : String) (legs : List Txn) (net : Money)
    (day : ActualDay) : ActualDay :=
  let c := classify net
  { day with
    income := day.income + c.income
    expense := day.expense + c.expense
    net := day.net + net
    items := day.items ++
      [ActualItem.transfer gid (match legs.head? with
          | some l0 => l0.tx_date
          | none => day.date)
        "Transfer" (stableSortBy (fun a b => decide (a.amount ≤ b.amount)) legs) net] }

/-- Add one transfer group to the day of its first leg (skipped when the
group is empty or its date has no pre-created day). -/
def applyTransferGroup (gid : String) (legs : List Txn)
    (days : List ActualDay) : List ActualDay :=
  match legs.head? with
  | none => days
  | some l0 =>
    let net := sumAmounts legs
    days.map (fun day =>
      if day.date == l0.tx_date then transferDayUpdate gid legs net day else day)

/-- Is the item a grouped transfer? -/
def isTransferItem : ActualItem → Bool
  | ActualItem.transfer _ _ _ _ _ => true
  | ActualItem.tx _ => false

/-- The within-day item sort (stable, transfers first). -/
def sortItems (its : List ActualItem) : List ActualItem :=
  its.filter isTransferItem ++ its.filter (fun i => !isTransferItem i)

/-- The running-balance loop: thread `running` through the ordered days,
stamping each day's `runningBalance`; also returns the final `running`
(which the source reports as `closingBalance`). -/
def applyRunning (r : Money) : List ActualDay → List ActualDay × Money
  | [] => ([], r)
  | day :: rest =>
    let r1 := r + day.net
    let p := applyRunning r1 rest
    ({ day with runningBalance := r1 } :: p.1, p.2)

/-- `getOpeningBalanceForAccount`: the account's `initial_balance` plus
the summed amounts of the user's transactions touching the account dated
strictly before `startDate`; `0` when the account row is missing. -/
def getOpeningBalanceForAccount (db : Db) (userId accountId : String)
    (startDate : Ymd) : Money :=
  match (db.accounts.filter (fun a =>
      a.user_id == userId && a.id == accountId)).head? with
  | none => 0
  | some a =>
    a.initial_balance +
      sumAmounts (db.transactions.filter (fun t =>
        t.user_id == userId && touchesAccount accountId t &&
          Ymd.ltb t.tx_date startDate))

/-- `getOpeningBalanceAllAccounts`: all the user's accounts'
`initial_balance` summed, plus all the user's transactions dated strictly
before `startDate`. -/
def getOpeningBalanceAllAccounts (db : Db) (userId : String)
    (startDate : Ymd) : Money :=
  (db.accounts.filter (fun a => a.user_id == userId)).foldl
      (fun s a => s + a.initial_balance) 0 +
    sumAmounts (db.transactions.filter (fun t =>
      t.user_id == userId && Ymd.ltb t.tx_date startDate))

/-- `CashflowActualMonthResponse`. -/
structure ActualMonthResponse where
  month : String
  startDate : Ymd
  endDateExclusive : Ymd
  openingBalance : Money
  closingBalance : Money
  totals : Totals
  days : List ActualDay
deriving DecidableEq, Repr

/-- `buildCashflowActualMonth`: opening balance, month rows, transfer
grouping, pre-created days, per-day aggregation (normals then transfer
groups), within-day item sort, chronological day order, running-balance
stamping, totals. -/
def buildCashflowActualMonth (db : Db) (userId month : String)
    (accountId : Option String) : ActualMonthResponse :=
  let mb := monthBounds month
  let opening :=
    match accountId with
    | some a => getOpeningBalanceForAccount db userId a mb.startDate
    | none => getOpeningBalanceAllAccounts db userId mb.startDate
  let rows := actualMonthRows db userId mb.startDate mb.endDateExclusive accountId
  let part := partitionTransfers rows
  let days0 := initActualDays mb.year mb.monthIndex0
  let days1 := part.2.foldl (fun ds t => addNormalTx t ds) days0
  let days2 := part.1.foldl (fun ds g => applyTransferGroup g.1 g.2 ds) days1
  let days3 := days2.map (fun d => { d with items := sortItems d.items })
  let days4 := stableSortBy (fun a b => Ymd.leb a.date b.date) days3
  let run := applyRunning opening days4
  let totals := run.1.foldl (fun acc d =>
    { income := acc.income + d.income
      expense := acc.expense + d.expense
      net := acc.net + d.net }) ⟨0, 0, 0⟩
  { month
    startDate := mb.startDate
    endDateExclusive := mb.endDateExclusive
    openingBalance := opening
    closingBalance := run.2
    totals
    days := run.1 }

/-! ## Plan projector (`lib/cashflow/plan.ts`) -/

/-- Decimal digit character. -/
def digitChar (n : Nat) : Char := Char.ofNat (48 + n)

/-- Decimal digits of `n`, most significant first (structural fuel
recursion so the rendering evaluates). -/
def natDigits : Nat → Nat → List Char
  | 0, _ => []
  | fuel + 1, n =>
    if n < 10 then [digitChar n] else natDigits fuel (n / 10) ++ [digitChar (n % 10)]

/-- Decimal rendering of a natural number. -/
def natToStr (n : Nat) : String := ⟨natDigits (n + 1) n⟩

/-- Zero-pad to two digits. -/
def pad2 (n : Nat) : String := if n < 10 then "0" ++ natToStr n else natToStr n

/-- Zero-pad a year to four digits (the `toISOString` year field for the
years in scope). -/
def pad4 (n : Int) : String :=
  if n < 0 then "-" ++ natToStr (-n).toNat
  else if n < 10 then "000" ++ natToStr n.toNat
  else if n < 100 then "00" ++ natToStr n.toNat
  else if n < 1000 then "0" ++ natToStr n.toNat
  else natToStr n.toNat

/-- Canonical `YYYY-MM-DD` rendering of a date. -/
def ymdString (d : Ymd) : String :=
  pad4 d.y ++ "-" ++ pad2 d.m ++ "-" ++ pad2 d.d

/-- Event source tag of `CashflowPlanEvent`. -/
inductive PlanSourceTag | salary | invoice | recurring | budget_reserve | commission
deriving DecidableEq, Repr

/-- A `CashflowPlanEvent` of `plan.ts`. -/
structure PlanMonthEvent where
  id : String
  date : Ymd
  amount : Money
  title : String
  source : PlanSourceTag
  invoiceId : Option String
deriving DecidableEq, Repr

/-- The active-salary query: the user's active rows, newest `created_at`
first, `LIMIT 1`. -/
def activeSalary (db : Db) (userId : String) : Option SalarySetting :=
  (stableSortBy (fun a b => decide (b.created_at ≤ a.created_at))
    (db.salary_settings.filter (fun s => s.user_id == userId && s.is_active))).head?

/-- The salary block of `buildCashflowPlanMonth`: one event at the
payout day clamped into `[1, last day of month]`. (The source condition
`salary.rowCount ?? 0 > 0` parses as `rowCount ?? (0 > 0)` and is truthy
exactly when a row was returned.) -/
def salaryPlanEvents (db : Db) (userId : String) (mb : MonthBounds) :
    List PlanMonthEvent :=
  match activeSalary db userId with
  | none => []
  | some s =>
    let last := lastDayOfMonthUTC mb.year mb.monthIndex0
    let d : Nat := (min (max s.payout_day 1) (last : Int)).toNat
    let dt := dateUTC mb.year mb.monthIndex0 d
    [{ id := "salary:" ++ s.id ++ ":" ++ ymdString dt
       date := dt
       amount := s.net_amount
       title := "Gehalt"
       source := PlanSourceTag.salary
       invoiceId := none }]

/-- `ORDER BY expected_payment_date ASC, created_at ASC` key (rows are
pre-filtered to a non-null expected date). -/
def invoiceOrderLe (a b : Invoice) : Bool :=
  let da := a.expected_payment_date.getD ⟨0, 0, 0⟩
  let db := b.expected_payment_date.getD ⟨0, 0, 0⟩
  Ymd.ltb da db || (da == db && decide (a.created_at ≤ b.created_at))

/-- The invoice block of `buildCashflowPlanMonth`: one event per invoice
of the user with status `planned`/`sent` whose `expected_payment_date`
lies in `[startDate, endDateExclusive)`. -/
def invoicePlanEvents (db : Db) (userId : String) (mb : MonthBounds) :
    List PlanMonthEvent :=
  (stableSortBy invoiceOrderLe
    (db.invoices.filter (fun i =>
      i.user_id == userId &&
        (i.status == InvoiceStatus.planned || i.status == InvoiceStatus.sent) &&
        (match i.expected_payment_date with
         | some e => Ymd.leb mb.startDate e && Ymd.ltb e mb.endDateExclusive
         | none => false)))).map (fun r =>
    { id := "invoice:" ++ r.id
      date := r.expected_payment_date.getD ⟨0, 0, 0⟩
      amount := r.amount
      title := if r.customer_name != "" then "Rechnung: " ++ r.customer_name
               else "Rechnung"
      source := PlanSourceTag.invoice
      invoiceId := some r.id })

/-- The full `events` array `buildCashflowPlanMonth` accumulates: the
salary event(s) followed by the invoice events — these are the only two
pushes in the function. -/
def planMonthEvents (db : Db) (userId : String) (mb : MonthBounds) :
    List PlanMonthEvent :=
  salaryPlanEvents db userId mb ++ invoicePlanEvents db userId mb

/-- A `CashflowPlanDay`. -/
structure PlanDay where
  date : Ymd
  income : Money
  expense : Money
  net : Money
  events : List PlanMonthEvent
deriving DecidableEq, Repr

/-- `CashflowPlanMonthResponse`. -/
structure PlanMonthResponse where
  month : String
  startDate : Ymd
  endDateExclusive : Ymd
  totals : Totals
  days : List PlanDay
deriving DecidableEq, Repr

/-- Bucket one plan event into its pre-created day (silently dropped when
its date has no day, per the `if (!day) continue` guard). -/
def addPlanEvent (e : PlanMonthEvent) (days : List PlanDay) : List PlanDay :=
  days.map (fun day =>
    if day.date == e.date then
      { day with
        events := day.events ++ [e]
        income := if 0 ≤ e.amount then day.income + e.amount else day.income
        expense := if 0 ≤ e.amount then day.expense else day.expense + (-e.amount)
        net := day.net + e.amount }
    else day)

/-- `buildCashflowPlanMonth`: month bounds, the two event sources,
pre-created zeroed days, event bucketing, chronological day order,
totals. No opening/running balance exists in plan mode. -/
def buildCashflowPlanMonth (db : Db) (userId month : String) : PlanMonthResponse :=
  let mb := monthBounds month
  let events := planMonthEvents db userId mb
  let last := lastDayOfMonthUTC mb.year mb.monthIndex0
  let days0 : List PlanDay := (List.range last).map (fun i =>
    { date := dateUTC mb.year mb.monthIndex0 (i + 1)
      income := 0, expense := 0, net := 0, events := [] })
  let days1 := events.foldl (fun ds e => addPlanEvent e ds) days0
  let days := stableSortBy (fun a b => Ymd.leb a.date b.date) days1
  let totals := days.foldl (fun acc d =>
    { income := acc.income + d.income
      expense := acc.expense + d.expense
      net := acc.net + d.net }) ⟨0, 0, 0⟩
  { month
    startDate := mb.startDate
    endDateExclusive := mb.endDateExclusive
    totals
    days }

/-! ## The recurring/budget plan route (the separate plan `GET` handler) -/

/-- Event kind of the recurring/budget plan route. -/
inductive PlanGetKind | RECURRING | BUDGET_RESERVE
deriving DecidableEq, Repr

/-- The `meta` payload of a route plan event. -/
structure PlanGetMeta where
  recurringId : Option String
  budgetId : Option String
  category : Option String
  accountId : Option String
deriving DecidableEq, Repr

/-- A `PlanEvent` of the recurring/budget plan route. -/
structure PlanGetEvent where
  date : Ymd
  kind : PlanGetKind
  title : String
  amount : Money
  meta : PlanGetMeta
deriving DecidableEq, Repr

/-- `daysInMonth(year, month1to12)` of the route:
`new Date(year, month1to12, 0).getDate()`, i.e. the length of the
(normalized) month numbered `month1to12`. -/
def daysInMonthJs (year : Int) (month1to12 : Int) : Nat :=
  let ym := normYM year (month1to12 - 1)
  daysInMonth ym.1 (ym.2 + 1)

/-- The window data the route derives from the parsed `YYYY-MM` query:
parsed year/month (UNnormalized, as the route splices them back into
template strings), the day count, and the inclusive month start and end
template dates. -/
structure PlanWindow where
  y : Int
  m : Nat
  dim : Nat
  monthStart : Ymd
  monthEnd : Ymd
deriving DecidableEq, Repr

/-- Build the route window from the parsed month. -/
def mkPlanWindow (y : Int) (m : Nat) : PlanWindow :=
  let dim := daysInMonthJs y (m : Int)
  { y, m, dim, monthStart := ⟨y, m, 1⟩, monthEnd := ⟨y, m, dim⟩ }

/-- The WEEKLY loop body over the remaining iteration indices: generate
`monthStart + 7*i` days (via `setUTCDate`, which rolls month overflow),
stop (`break`) as soon as the generated date exceeds `monthEnd`. -/
def weeklyGo (w : PlanWindow) : List Nat → List Ymd
  | [] => []
  | i :: rest =>
    let ds := setUTCDateRoll w.y w.m (1 + 7 * i)
    if Ymd.ltb w.monthEnd ds then [] else ds :: weeklyGo w rest

/-- The dates the WEEKLY heuristic emits: `for (i = 0; i < 6; i++)` with
the early `break`. -/
def weeklyDates (w : PlanWindow) : List Ymd := weeklyGo w (List.range 6)

/-- Expansion of one recurring rule into the window's events (`MONTHLY`
exactly one clamped day, `WEEKLY` the 7-day heuristic, `YEARLY` only when
the rule's start month matches). A stored `day_of_month` of `0` is
skipped like `NULL` (`if (!dom) continue`). -/
def expandRecurring (w : PlanWindow) (r : RecurringRule) : List PlanGetEvent :=
  let meta : PlanGetMeta :=
    { recurringId := some r.id, budgetId := none
      category := r.category, accountId := some r.account_id }
  (if r.interval_type == RecurInterval.MONTHLY then
    match r.day_of_month with
    | none => []
    | some dom =>
      if dom == 0 then []
      else [{ date := ⟨w.y, w.m, min dom w.dim⟩, kind := PlanGetKind.RECURRING
              title := r.description, amount := r.amount, meta }]
   else []) ++
  (if r.interval_type == RecurInterval.WEEKLY then
    (weeklyDates w).map (fun ds =>
      { date := ds, kind := PlanGetKind.RECURRING
        title := r.description, amount := r.amount, meta })
   else []) ++
  (if r.interval_type == RecurInterval.YEARLY then
    if r.start_date.m == w.m then
      [{ date := ⟨w.y, w.m, min r.start_date.d w.dim⟩, kind := PlanGetKind.RECURRING
         title := r.description, amount := r.amount, meta }]
    else []
   else [])

/-- The route's recurring query: the user's rules with
`start_date <= monthEnd` and (`end_date` null or `end_date >= monthStart`),
in store order (the SQL has no `ORDER BY`). -/
def recurringInWindow (db : Db) (userId : String) (w : PlanWindow) :
    List RecurringRule :=
  db.recurring.filter (fun r =>
    r.user_id == userId && Ymd.leb r.start_date w.monthEnd &&
      (match r.end_date with
       | none => true
       | some e => Ymd.leb w.monthStart e))

/-- The recurring part of the route's event list. -/
def recurringPlanGetEvents (db : Db) (userId : String) (w : PlanWindow) :
    List PlanGetEvent :=
  (recurringInWindow db userId w).flatMap (expandRecurring w)

/-- The budget part: one reserve event per queried budget
(`period_start <= monthEnd`, `period_end >= monthStart`) whose
`period_start` lies in the window's month (`startsWith` on the month
prefix), dated `period_start` with amount `-planned_amount`. -/
def budgetPlanGetEvents (db : Db) (userId : String) (w : PlanWindow) :
    List PlanGetEvent :=
  (db.budgets.filter (fun b =>
    b.user_id == userId && Ymd.leb b.period_start w.monthEnd &&
      Ymd.leb w.monthStart b.period_end)).filterMap (fun b =>
    if b.period_start.y == w.y && b.period_start.m == w.m then
      some { date := b.period_start, kind := PlanGetKind.BUDGET_RESERVE
             title := "Budget: " ++ b.name
             amount := -b.planned_amount
             meta := { recurringId := none, budgetId := some b.id
                       category := some b.category, accountId := b.account_id } }
    else none)

/-- The route's full event list: recurring expansions concatenated with
budget reserves, then sorted by date (stable, preserving push order on
equal dates). -/
def planGetEvents (db : Db) (userId : String) (w : PlanWindow) :
    List PlanGetEvent :=
  stableSortBy (fun a b => Ymd.leb a.date b.date)
    (recurringPlanGetEvents db userId w ++ budgetPlanGetEvents db userId w)

/-- A day entry of the route response. -/
structure PlanGetDay where
  date : Ymd
  events : List PlanGetEvent
  daySum : Money
  running : Money
deriving DecidableEq, Repr

/-- The route's day construction over day numbers `1..dim`, threading the
running plan balance (which starts at 0). -/
def planGetDaysGo (w : PlanWindow) (events : List PlanGetEvent)
    (running : Money) : List Nat → List PlanGetDay
  | [] => []
  | i :: rest =>
    let date : Ymd := ⟨w.y, w.m, i + 1⟩
    let ev := events.filter (fun e => e.date == date)
    let daySum := ev.foldl (fun s e => s + e.amount) 0
    let r1 := running + daySum
    { date, events := ev, daySum, running := r1 } :: planGetDaysGo w events r1 rest

/-- Route response: days plus kind-split totals. -/
structure PlanGetResponse where
  month : String
  days : List PlanGetDay
  totalsRecurring : Money
  totalsBudgetsReserved : Money
  totalsNet : Money
deriving DecidableEq, Repr

/-- The month query-string pattern `^\d{4}-\d{2}$`. -/
def monthRegexMatches (s : String) : Bool :=
  match s.data with
  | [a, b, c, d, e, f, g] =>
    a.isDigit && b.isDigit && c.isDigit && d.isDigit && e == '-' &&
      f.isDigit && g.isDigit
  | _ => false

/-- Parse the (regex-validated) month string into year and month numbers
(`month.split('-')` then `Number`). -/
def parseMonthParts (month : String) : Int × Nat :=
  let parts := splitOnChar '-' month.data
  ((jsNumberChars (parts.getD 0 []) : Int), jsNumberChars (parts.getD 1 []))

/-- The recurring/budget plan `GET` route: regex-validate the month (400
otherwise, modelled as `none`), then expand events and build the day
list. A regex-valid month whose number is outside `1..12` makes the
`::date` casts in the SQL reads fail, surfacing as a server error
(also modelled as `none`). -/
def planGetRoute (db : Db) (userId : String) (monthParam : Option String) :
    Option PlanGetResponse :=
  match monthParam with
  | none => none
  | some month =>
    if monthRegexMatches month then
      let p := parseMonthParts month
      if 1 ≤ p.2 ∧ p.2 ≤ 12 then
        let w := mkPlanWindow p.1 p.2
        let events := planGetEvents db userId w
        let days := planGetDaysGo w events 0 (List.range w.dim)
        some
          { month
            days
            totalsRecurring :=
              (events.filter (fun e => e.kind == PlanGetKind.RECURRING)).foldl
                (fun s e => s + e.amount) 0
            totalsBudgetsReserved :=
              (events.filter (fun e => e.kind == PlanGetKind.BUDGET_RESERVE)).foldl
                (fun s e => s + e.amount) 0
            totalsNet := events.foldl (fun s e => s + e.amount) 0 }
      else none
    else none

/-! ## Cashflow query routes (`api/cashflow/plan`, `api/cashflow/actual`) -/

/-- The `api/cashflow/plan` route: the month query parameter must be
present and match `^\d{4}-\d{2}$` (400 / `none` otherwise), then the
builder runs on the raw string. -/
def cashflowPlanRoute (db : Db) (userId : String)
    (monthParam : Option String) : Option PlanMonthResponse :=
  match monthParam with
  | none => none
  | some month =>
    if monthRegexMatches month then some (buildCashflowPlanMonth db userId month)
    else none

/-- The `api/cashflow/actual` route: same month validation; the optional
`accountId` parameter is taken here already parsed (its uuid-format check
is orthogonal to the month handling). -/
def cashflowActualRoute (db : Db) (userId : String)
    (monthParam : Option String) (accountId : Option String) :
    Option ActualMonthResponse :=
  match monthParam with
  | none => none
  | some month =>
    if monthRegexMatches month then
      some (buildCashflowActualMonth db userId month accountId)
    else none

/-! ## Ledger writer (`api/transactions` POST, mark-paid POST) -/

/-- Request kind of `CreateTransactionSchema`. -/
inductive TxKind | NORMAL | TRANSFER
deriving DecidableEq, Repr

/-- A parsed create-transaction request body (post zod defaults). -/
structure CreateTxReq where
  kind : TxKind
  accountId : Option String
  fromAccountId : Option String
  toAccountId : Option String
  amount : Money
  description : String
  category : Option String
  tags : List String
  isBusiness : Bool
  isTaxRelevant : Bool
  txDate : Ymd
deriving DecidableEq, Repr

/-- The `CreateTransactionSchema` refinements: base string bounds plus
the `superRefine` block — NORMAL needs `accountId` and no from/to;
TRANSFER needs distinct `fromAccountId`/`toAccountId`, a strictly
positive amount, and no `accountId`. -/
def validCreateTx (r : CreateTxReq) : Bool :=
  decide (1 ≤ r.description.length) && decide (r.description.length ≤ 200) &&
  (match r.category with
   | some c => decide (c.length ≤ 120)
   | none => true) &&
  r.tags.all (fun t => decide (t.length ≤ 40)) &&
  (match r.kind with
   | TxKind.NORMAL =>
     r.accountId.isSome && r.fromAccountId.isNone && r.toAccountId.isNone
   | TxKind.TRANSFER =>
     r.fromAccountId.isSome && r.toAccountId.isSome &&
       r.fromAccountId != r.toAccountId && decide (0 < r.amount) &&
       r.accountId.isNone)

/-- Outcome of the transactions POST handler. -/
inductive CreateTxResp
  | createdNormal (id : String)
  | createdTransfer (transferGroupId outId inId : String)
  | invalidInput
  | invalidAccountRef
  | dbError
deriving DecidableEq, Repr

/-- Which low-level writes of a two-step unit of work fail at runtime;
the handlers roll the whole unit back when any step fails. -/
structure LedgerFaults where
  firstWriteFails : Bool
  secondWriteFails : Bool
deriving DecidableEq, Repr

/-- Generated row id for the `RETURNING id` of an insert at a serial. -/
def genTxId (serial : Nat) : String := "tx-" ++ natToStr serial

/-- The ownership check of the transactions POST: every referenced
account id must count an `accounts` row of the requesting user
(`SELECT COUNT(*) ... WHERE user_id = $1 AND id = ANY($2)`). -/
def ownedCount (db : Db) (userId : String) (ids : List String) : Nat :=
  (db.accounts.filter (fun a => a.user_id == userId && ids.contains a.id)).length

/-- The transactions POST handler. Validation and the ownership check run
before any mutation; the NORMAL branch inserts one row; the TRANSFER
branch generates one fresh group id (`gen_random_uuid()`, supplied here
as `newGid`) and inserts the OUT then the IN leg inside one
`BEGIN`/`COMMIT`; any failing insert rolls the whole unit back. -/
def postTransactions (db : Db) (userId : String) (req : CreateTxReq)
    (newGid : String) (faults : LedgerFaults) : CreateTxResp × Db :=
  if ¬ validCreateTx req then (CreateTxResp.invalidInput, db)
  else
    let ids := [req.accountId, req.fromAccountId, req.toAccountId].filterMap
      (fun o => o)
    if ownedCount db userId ids ≠ ids.length then
      (CreateTxResp.invalidAccountRef, db)
    else
      match req.kind with
      | TxKind.NORMAL =>
        if faults.firstWriteFails then (CreateTxResp.dbError, db)
        else
          let row : Txn :=
            { id := genTxId db.nextSerial
              user_id := userId
              account_id := some (req.accountId.getD "")
              from_account_id := none
              to_account_id := none
              amount := req.amount
              description := req.description
              category := req.category
              tags := req.tags
              is_business := req.isBusiness
              is_tax_relevant := req.isTaxRelevant
              tx_date := req.txDate
              transfer_group_id := none
              transfer_leg := none
              invoice_id := none
              created_at := db.nextSerial }
          (CreateTxResp.createdNormal row.id,
           { db with
             transactions := db.transactions ++ [row]
             nextSerial := db.nextSerial + 1 })
      | TxKind.TRANSFER =>
        if faults.firstWriteFails then (CreateTxResp.dbError, db)
        else
          let outRow : Txn :=
            { id := genTxId db.nextSerial
              user_id := userId
              account_id := some (req.fromAccountId.getD "")
              from_account_id := none
              to_account_id := none
              amount := -|req.amount|
              description := req.description
              category := some (req.category.getD "Transfer")
              tags := req.tags
              is_business := req.isBusiness
              is_tax_relevant := req.isTaxRelevant
              tx_date := req.txDate
              transfer_group_id := some newGid
              transfer_leg := some TransferLeg.OUT
              invoice_id := none
              created_at := db.nextSerial }
          if faults.secondWriteFails then (CreateTxResp.dbError, db)
          else
            let inRow : Txn :=
              { id := genTxId (db.nextSerial + 1)
                user_id := userId
                account_id := some (req.toAccountId.getD "")
                from_account_id := none
                to_account_id := none
                amount := |req.amount|
                description := req.description
                category := some (req.category.getD "Transfer")
                tags := req.tags
                is_business := req.isBusiness
                is_tax_relevant := req.isTaxRelevant
                tx_date := req.txDate
                transfer_group_id := some newGid
                transfer_leg := some TransferLeg.IN
                invoice_id := none
                created_at := db.nextSerial + 1 }
            (CreateTxResp.createdTransfer newGid outRow.id inRow.id,
             { db with
               transactions := db.transactions ++ [outRow, inRow]
               nextSerial := db.nextSerial + 2 })

/-- A parsed mark-paid request body (post zod defaults; `category`
defaults to `Income`). -/
structure MarkPaidReq where
  accountId : String
  txDate : Ymd
  category : String
  description : Option String
  isBusiness : Bool
  isTaxRelevant : Bool
  tags : List String
deriving DecidableEq, Repr

/-- Outcome of the mark-paid POST handler. -/
inductive MarkPaidResp
  | paidOk (invoiceId txId : String)
  | notFound
  | invoiceIsVoid
  | alreadyPaid
  | failed
deriving DecidableEq, Repr

/-- The locked-row invoice lookup (`SELECT ... WHERE user_id AND id FOR
UPDATE`, first row). -/
def findInvoice (db : Db) (userId invoiceId : String) : Option Invoice :=
  (db.invoices.filter (fun i => i.user_id == userId && i.id == invoiceId)).head?

/-- The payment-transaction description: the trimmed request description
when non-empty, else `Invoice payment: {customer}` (or the bare fallback
for an empty customer name) — JS `||` on the trimmed string. -/
def markPaidDescription (req : MarkPaidReq) (inv : Invoice) : String :=
  let fallback :=
    if inv.customer_name != "" then "Invoice payment: " ++ inv.customer_name
    else "Invoice payment"
  match req.description with
  | some s => if s.trim != "" then s.trim else fallback
  | none => fallback

/-- The mark-paid POST handler: inside one `BEGIN`/`COMMIT`, lock and
fetch the invoice (404 when absent for this user), reject `void` and
`paid` states before any mutation, insert the positive income transaction
tagged with the invoice id, then update the invoice to `paid` with
`paid_at`/`paid_tx_id`; any failing step rolls the whole unit back.
Note the handler never checks that `req.accountId` belongs to the
requesting user. -/
def postMarkPaid (db : Db) (userId invoiceId : String) (req : MarkPaidReq)
    (faults : LedgerFaults) : MarkPaidResp × Db :=
  match findInvoice db userId invoiceId with
  | none => (MarkPaidResp.notFound, db)
  | some inv =>
    if inv.status == InvoiceStatus.voided then (MarkPaidResp.invoiceIsVoid, db)
    else if inv.status == InvoiceStatus.paid then (MarkPaidResp.alreadyPaid, db)
    else if faults.firstWriteFails then (MarkPaidResp.failed, db)
    else
      let txRow : Txn :=
        { id := genTxId db.nextSerial
          user_id := userId
          account_id := some req.accountId
          from_account_id := none
          to_account_id := none
          amount := inv.amount
          description := markPaidDescription req inv
          category := some req.category
          tags := req.tags
          is_business := req.isBusiness
          is_tax_relevant := req.isTaxRelevant
          tx_date := req.txDate
          transfer_group_id := none
          transfer_leg := none
          invoice_id := some invoiceId
          created_at := db.nextSerial }
      if faults.secondWriteFails then (MarkPaidResp.failed, db)
      else
        (MarkPaidResp.paidOk invoiceId txRow.id,
         { db with
           transactions := db.transactions ++ [txRow]
           invoices := db.invoices.map (fun i =>
             if i.user_id == userId && i.id == invoiceId then
               { i with
                 status := InvoiceStatus.paid
                 paid_at := some req.txDate
                 paid_tx_id := some txRow.id }
             else i)
           nextSerial := db.nextSerial + 1 })

/-! ## Proof infrastructure -/

attribute [local semireducible] Rat.add Rat.sub Rat.mul Rat.inv Rat.ofScientific

set_option maxRecDepth 10000

theorem applyRunning_cons (r : Money) (d : ActualDay) (t : List ActualDay) :
    applyRunning r (d :: t)
      = ({ d with runningBalance := r + d.net } :: (applyRunning (r + d.net) t).1,
         (applyRunning (r + d.net) t).2) := rfl

theorem applyRunning_get_zero (r : Money) (ds : List ActualDay)
    (h : 0 < ((applyRunning r ds).1).length) :
    (((applyRunning r ds).1).get ⟨0, h⟩).runningBalance
      = r + (((applyRunning r ds).1).get ⟨0, h⟩).net := by
  cases ds with
  | nil => simp [applyRunning] at h
  | cons d t => simp [applyRunning_cons]

theorem applyRunning_get_succ (r : Money) (ds : List ActualDay) (i : Nat)
    (h : i + 1 < ((applyRunning r ds).1).length) :
    (((applyRunning r ds).1).get ⟨i + 1, h⟩).runningBalance
      = (((applyRunning r ds).1).get ⟨i, Nat.lt_of_succ_lt h⟩).runningBalance
        + (((applyRunning r ds).1).get ⟨i + 1, h⟩).net := by
  induction ds generalizing r i with
  | nil => simp [applyRunning] at h
  | cons d t ih =>
    cases i with
    | zero =>
      have h2 : 0 < ((applyRunning (r + d.net) t).1).length := by
        have := h
        simp [applyRunning_cons] at this
        omega
      simpa [applyRunning_cons] using applyRunning_get_zero (r + d.net) t h2
    | succ j =>
      have h2 : j + 1 < ((applyRunning (r + d.net) t).1).length := by
        have := h
        simp [applyRunning_cons] at this
        omega
      simpa [applyRunning_cons] using ih (r + d.net) j h2

theorem applyRunning_getLast (r : Money) (ds : List ActualDay) (dl : ActualDay)
    (h : ((applyRunning r ds).1).getLast? = some dl) :
    (applyRunning r ds).2 = dl.runningBalance := by
  induction ds generalizing r with
  | nil => simp [applyRunning] at h
  | cons d t ih =>
    cases t with
    | nil =>
      simp [applyRunning] at h ⊢
      rw [← h]
    | cons e u =>
      have hx : (applyRunning r (d :: e :: u)).1
          = { d with runningBalance := r + d.net }
            :: { e with runningBalance := r + d.net + e.net }
            :: (applyRunning (r + d.net + e.net) u).1 := rfl
      rw [hx, List.getLast?_cons_cons] at h
      have h2 : ((applyRunning (r + d.net) (e :: u)).1).getLast? = some dl := by
        rw [applyRunning_cons]
        simpa using h
      simpa [applyRunning_cons] using ih (r + d.net) h2

theorem buildActual_days_shape (db : Db) (userId month : String)
    (accountId : Option String) :
    ∃ ds : List ActualDay,
      (buildCashflowActualMonth db userId month accountId).days
          = (applyRunning
              (buildCashflowActualMonth db userId month accountId).openingBalance ds).1 ∧
        (buildCashflowActualMonth db userId month accountId).closingBalance
          = (applyRunning
              (buildCashflowActualMonth db userId month accountId).openingBalance ds).2 :=
  ⟨_, rfl, rfl⟩

/-! ## Concrete scenario databases -/

/-- The account of testable-property scenario A: `initial_balance` 1000. -/
def acctMain : Account :=
  { id := "a1", user_id := "u1", name := "Main", initial_balance := 1000 }

/-- The single transaction of scenario A: −200 on 2025-03-10. -/
def txnSpend : Txn :=
  { id := "t1", user_id := "u1", account_id := some "a1",
    from_account_id := none, to_account_id := none, amount := -200,
    description := "Spend", category := none, tags := [], is_business := false,
    is_tax_relevant := false, tx_date := ⟨2025, 3, 10⟩, transfer_group_id := none,
    transfer_leg := none, invoice_id := none, created_at := 0 }

/-- Scenario A store: one account, one −200 transaction in March 2025. -/
def c1Db : Db :=
  { accounts := [acctMain]
    transactions := [txnSpend]
    invoices := []
    salary_settings := []
    recurring := []
    budgets := []
    nextSerial := 1 }

/-! ## Claim C1 -/

/-- C1: in every actual-month build, the first day's running balance is
the opening balance plus that day's net, each later day's running balance
is the previous day's plus its own net, and the closing balance is the
last day's running balance; and for an account with initial balance 1000
and a single −200 transaction on 2025-03-10, building "2025-03"
unfiltered yields opening balance 1000, running balance 800 on and after
2025-03-10, and closing balance 800. -/
theorem c1_actual_running_balance :
    (∀ (db : Db) (userId month : String) (accountId : Option String),
      (∀ h0 : 0 < (buildCashflowActualMonth db userId month accountId).days.length,
        (((buildCashflowActualMonth db userId month accountId).days).get
            ⟨0, h0⟩).runningBalance
          = (buildCashflowActualMonth db userId month accountId).openingBalance
            + (((buildCashflowActualMonth db userId month accountId).days).get
                ⟨0, h0⟩).net) ∧
      (∀ (i : Nat)
          (h : i + 1 < (buildCashflowActualMonth db userId month accountId).days.length),
        (((buildCashflowActualMonth db userId month accountId).days).get
            ⟨i + 1, h⟩).runningBalance
          = (((buildCashflowActualMonth db userId month accountId).days).get
              ⟨i, Nat.lt_of_succ_lt h⟩).runningBalance
            + (((buildCashflowActualMonth db userId month accountId).days).get
                ⟨i + 1, h⟩).net) ∧
      (∀ dl : ActualDay,
        ((buildCashflowActualMonth db userId month accountId).days).getLast? = some dl →
          (buildCashflowActualMonth db userId month accountId).closingBalance
            = dl.runningBalance)) ∧
    ((buildCashflowActualMonth c1Db "u1" "2025-03" none).openingBalance = 1000 ∧
      ((buildCashflowActualMonth c1Db "u1" "2025-03" none).days.all
        (fun day => !Ymd.leb ⟨2025, 3, 10⟩ day.date || day.runningBalance == 800)) = true ∧
      (buildCashflowActualMonth c1Db "u1" "2025-03" none).closingBalance = 800) := by
  constructor
  · intro db userId month accountId
    obtain ⟨ds, hd, hc⟩ := buildActual_days_shape db userId month accountId
    refine ⟨?_, ?_, ?_⟩
    · rw [hd]
      exact fun h0 => applyRunning_get_zero _ ds h0
    · rw [hd]
      exact fun i h => applyRunning_get_succ _ ds i h
    · rw [hd, hc]
      exact fun dl h => applyRunning_getLast _ ds dl h
  · exact ⟨by decide, by decide, by decide⟩

/-- C1 witness: the recurrence applied at day index 1 of the concrete
scenario-A build. -/
theorem c1_actual_running_balance_witness :
    ((buildCashflowActualMonth c1Db "u1" "2025-03" none).days.get
        ⟨1, by decide⟩).runningBalance
      = ((buildCashflowActualMonth c1Db "u1" "2025-03" none).days.get
          ⟨0, by decide⟩).runningBalance
        + ((buildCashflowActualMonth c1Db "u1" "2025-03" none).days.get
            ⟨1, by decide⟩).net :=
  ((c1_actual_running_balance.1 c1Db "u1" "2025-03" none).2.1 0 (by decide))

/-! ## Claim C5 -/

theorem foldl_add_eq {α : Type} (f : α → Money) (l : List α) (init : Money) :
    l.foldl (fun s x => s + f x) init = init + (l.map f).sum := by
  induction l generalizing init with
  | nil => simp
  | cons x t ih =>
    simp only [List.foldl_cons, List.map_cons, List.sum_cons, ih]
    ring

/-- C5: in every actual-month build, with an account filter the opening
balance is that account's initial balance plus the summed amounts of the
user's transactions before the month start whose account_id,
from_account_id, or to_account_id equals the filter account; without a
filter it is the sum of all the user's accounts' initial balances plus
the summed amounts of all the user's transactions before the month
start. -/
theorem c5_opening_balance :
    (∀ (db : Db) (userId month accId : String) (acct : Account),
      (db.accounts.filter (fun a => a.user_id == userId && a.id == accId)).head?
          = some acct →
        (buildCashflowActualMonth db userId month (some accId)).openingBalance
          = acct.initial_balance
            + ((db.transactions.filter (fun t =>
                t.user_id == userId &&
                  (t.account_id == some accId || t.from_account_id == some accId ||
                    t.to_account_id == some accId) &&
                  Ymd.ltb t.tx_date (monthBounds month).startDate)).map Txn.amount).sum) ∧
    (∀ (db : Db) (userId month : String),
      (buildCashflowActualMonth db userId month none).openingBalance
        = ((db.accounts.filter (fun a => a.user_id == userId)).map
            Account.initial_balance).sum
          + ((db.transactions.filter (fun t =>
              t.user_id == userId &&
                Ymd.ltb t.tx_date (monthBounds month).startDate)).map Txn.amount).sum) := by
  constructor
  · intro db userId month accId acct hacct
    have hob : (buildCashflowActualMonth db userId month (some accId)).openingBalance
        = getOpeningBalanceForAccount db userId accId (monthBounds month).startDate := rfl
    rw [hob, getOpeningBalanceForAccount, hacct, sumAmounts, foldl_add_eq]
    simp only [touchesAccount]
    ring
  · intro db userId month
    have hob : (buildCashflowActualMonth db userId month none).openingBalance
        = getOpeningBalanceAllAccounts db userId (monthBounds month).startDate := rfl
    rw [hob, getOpeningBalanceAllAccounts, sumAmounts, foldl_add_eq, foldl_add_eq]
    ring

/-- C5 witness: the filtered opening balance of the scenario-A store for
April 2025 (the −200 March transaction precedes the month start). -/
theorem c5_opening_balance_witness :
    (buildCashflowActualMonth c1Db "u1" "2025-04" (some "a1")).openingBalance
      = acctMain.initial_balance
        + ((c1Db.transactions.filter (fun t =>
            t.user_id == "u1" &&
              (t.account_id == some "a1" || t.from_account_id == some "a1" ||
                t.to_account_id == some "a1") &&
              Ymd.ltb t.tx_date (monthBounds "2025-04").startDate)).map Txn.amount).sum :=
  c5_opening_balance.1 c1Db "u1" "2025-04" "a1" acctMain (by decide)

/-! ## Claim C10 -/

/-- Account A of testable-property scenario B. -/
def acctA : Account := { id := "A", user_id := "u1", name := "A", initial_balance := 0 }

/-- Account B of scenario B. -/
def acctB : Account := { id := "B", user_id := "u1", name := "B", initial_balance := 0 }

/-- OUT leg of the 150 transfer from A to B on 2025-06-05. -/
def txnOutLeg : Txn :=
  { id := "t2", user_id := "u1", account_id := some "A",
    from_account_id := none, to_account_id := none, amount := -150,
    description := "Move", category := some "Transfer", tags := [],
    is_business := false, is_tax_relevant := false, tx_date := ⟨2025, 6, 5⟩,
    transfer_group_id := some "g1", transfer_leg := some TransferLeg.OUT,
    invoice_id := none, created_at := 0 }

/-- IN leg of the 150 transfer from A to B on 2025-06-05. -/
def txnInLeg : Txn :=
  { id := "t3", user_id := "u1", account_id := some "B",
    from_account_id := none, to_account_id := none, amount := 150,
    description := "Move", category := some "Transfer", tags := [],
    is_business := false, is_tax_relevant := false, tx_date := ⟨2025, 6, 5⟩,
    transfer_group_id := some "g1", transfer_leg := some TransferLeg.IN,
    invoice_id := none, created_at := 1 }

/-- Scenario B store: accounts A and B and one balanced two-leg
transfer. -/
def c10Db : Db :=
  { accounts := [acctA, acctB]
    transactions := [txnOutLeg, txnInLeg]
    invoices := []
    salary_settings := []
    recurring := []
    budgets := []
    nextSerial := 2 }

/-- C10: a transfer group moves its day's income by `max(net, 0)` and its
expense by `max(-net, 0)` where `net` is the sum of the group's leg
amounts — never by the legs' gross amounts; concretely, the balanced
150-transfer adds zero income and zero expense to its day in the
unfiltered view, and filtered to the source account it adds 150 to
expense and nothing to income. -/
theorem c10_transfer_net_classification :
    (∀ (gid : String) (legs : List Txn) (day : ActualDay),
      (transferDayUpdate gid legs (sumAmounts legs) day).income
          = day.income + max (sumAmounts legs) 0 ∧
        (transferDayUpdate gid legs (sumAmounts legs) day).expense
          = day.expense + max (-(sumAmounts legs)) 0 ∧
        (transferDayUpdate gid legs (sumAmounts legs) day).net
          = day.net + sumAmounts legs) ∧
    (((buildCashflowActualMonth c10Db "u1" "2025-06" none).days.get
          ⟨4, by decide⟩).income = 0 ∧
      ((buildCashflowActualMonth c10Db "u1" "2025-06" none).days.get
          ⟨4, by decide⟩).expense = 0 ∧
      ((buildCashflowActualMonth c10Db "u1" "2025-06" none).days.get
          ⟨4, by decide⟩).net = 0) ∧
    (((buildCashflowActualMonth c10Db "u1" "2025-06" (some "A")).days.get
          ⟨4, by decide⟩).expense = 150 ∧
      ((buildCashflowActualMonth c10Db "u1" "2025-06" (some "A")).days.get
          ⟨4, by decide⟩).income = 0 ∧
      ((buildCashflowActualMonth c10Db "u1" "2025-06" (some "A")).days.get
          ⟨4, by decide⟩).net = -150) := by
  refine ⟨?_, ⟨by decide, by decide, by decide⟩, ⟨by decide, by decide, by decide⟩⟩
  intro gid legs day
  rcases le_or_lt 0 (sumAmounts legs) with hpos | hneg
  · refine ⟨?_, ?_, rfl⟩
    · simp [transferDayUpdate, classify, hpos, max_eq_left hpos]
    · have h2 : -(sumAmounts legs) ≤ 0 := neg_nonpos_of_nonneg hpos
      simp [transferDayUpdate, classify, hpos, max_eq_right h2]
  · have hle : sumAmounts legs ≤ 0 := le_of_lt hneg
    have hnot : ¬ (0 ≤ sumAmounts legs) := not_le_of_lt hneg
    refine ⟨?_, ?_, rfl⟩
    · simp [transferDayUpdate, classify, hnot, max_eq_right hle]
    · have h2 : 0 ≤ -(sumAmounts legs) := neg_nonneg_of_nonpos hle
      simp [transferDayUpdate, classify, hnot, max_eq_left h2]

/-! ## Claim C4 -/

/-- C4: a valid TRANSFER request (distinct owned accounts, positive
amount, no write fault) appends exactly the OUT leg (−|amount| on the
from-account) and the IN leg (+|amount| on the to-account), both carrying
the same fresh group id, the same tx_date, and the category defaulting to
"Transfer"; identical from/to or a non-positive amount is rejected with
no row inserted; and under a fresh group id exactly two rows of the
result carry it; any failing leg insert leaves the store unchanged. -/
theorem c4_transfer_creation :
    (∀ (db : Db) (userId : String) (req : CreateTxReq) (newGid : String)
        (faults : LedgerFaults) (fromId toId : String),
      req.kind = TxKind.TRANSFER →
      req.fromAccountId = some fromId →
      req.toAccountId = some toId →
      validCreateTx req = true →
      ownedCount db userId
          ([req.accountId, req.fromAccountId, req.toAccountId].filterMap (fun o => o))
        = ([req.accountId, req.fromAccountId, req.toAccountId].filterMap
            (fun o => o)).length →
      faults.firstWriteFails = false →
      faults.secondWriteFails = false →
      postTransactions db userId req newGid faults
        = (CreateTxResp.createdTransfer newGid (genTxId db.nextSerial)
            (genTxId (db.nextSerial + 1)),
           { db with
             transactions := db.transactions ++
               [{ id := genTxId db.nextSerial, user_id := userId,
                  account_id := some fromId, from_account_id := none,
                  to_account_id := none, amount := -|req.amount|,
                  description := req.description,
                  category := some (req.category.getD "Transfer"), tags := req.tags,
                  is_business := req.isBusiness, is_tax_relevant := req.isTaxRelevant,
                  tx_date := req.txDate, transfer_group_id := some newGid,
                  transfer_leg := some TransferLeg.OUT, invoice_id := none,
                  created_at := db.nextSerial },
                { id := genTxId (db.nextSerial + 1), user_id := userId,
                  account_id := some toId, from_account_id := none,
                  to_account_id := none, amount := |req.amount|,
                  description := req.description,
                  category := some (req.category.getD "Transfer"), tags := req.tags,
                  is_business := req.isBusiness, is_tax_relevant := req.isTaxRelevant,
                  tx_date := req.txDate, transfer_group_id := some newGid,
                  transfer_leg := some TransferLeg.IN, invoice_id := none,
                  created_at := db.nextSerial + 1 }]
             nextSerial := db.nextSerial + 2 })) ∧
    (∀ (db : Db) (userId : String) (req : CreateTxReq) (newGid : String)
        (faults : LedgerFaults),
      req.kind = TxKind.TRANSFER →
      req.fromAccountId = req.toAccountId →
      postTransactions db userId req newGid faults = (CreateTxResp.invalidInput, db)) ∧
    (∀ (db : Db) (userId : String) (req : CreateTxReq) (newGid : String)
        (faults : LedgerFaults),
      req.kind = TxKind.TRANSFER →
      req.amount ≤ 0 →
      postTransactions db userId req newGid faults = (CreateTxResp.invalidInput, db)) ∧
    (∀ (db : Db) (userId : String) (req : CreateTxReq) (newGid : String)
        (faults : LedgerFaults) (fromId toId : String),
      req.kind = TxKind.TRANSFER →
      req.fromAccountId = some fromId →
      req.toAccountId = some toId →
      validCreateTx req = true →
      ownedCount db userId
          ([req.accountId, req.fromAccountId, req.toAccountId].filterMap (fun o => o))
        = ([req.accountId, req.fromAccountId, req.toAccountId].filterMap
            (fun o => o)).length →
      faults.firstWriteFails = false →
      faults.secondWriteFails = false →
      (∀ t ∈ db.transactions, t.transfer_group_id ≠ some newGid) →
      ((postTransactions db userId req newGid faults).2.transactions.filter
          (fun t => t.transfer_group_id == some newGid)).length = 2) ∧
    (∀ (db : Db) (userId : String) (req : CreateTxReq) (newGid : String)
        (faults : LedgerFaults),
      req.kind = TxKind.TRANSFER →
      (faults.firstWriteFails = true ∨ faults.secondWriteFails = true) →
      (postTransactions db userId req newGid faults).2 = db) := by
  have hsuccess : ∀ (db : Db) (userId : String) (req : CreateTxReq) (newGid : String)
      (faults : LedgerFaults) (fromId toId : String),
      req.kind = TxKind.TRANSFER →
      req.fromAccountId = some fromId →
      req.toAccountId = some toId →
      validCreateTx req = true →
      ownedCount db userId
          ([req.accountId, req.fromAccountId, req.toAccountId].filterMap (fun o => o))
        = ([req.accountId, req.fromAccountId, req.toAccountId].filterMap
            (fun o => o)).length →
      faults.firstWriteFails = false →
      faults.secondWriteFails = false →
      postTransactions db userId req newGid faults
        = (CreateTxResp.createdTransfer newGid (genTxId db.nextSerial)
            (genTxId (db.nextSerial + 1)),
           { db with
             transactions := db.transactions ++
               [{ id := genTxId db.nextSerial, user_id := userId,
                  account_id := some fromId, from_account_id := none,
                  to_account_id := none, amount := -|req.amount|,
                  description := req.description,
                  category := some (req.category.getD "Transfer"), tags := req.tags,
                  is_business := req.isBusiness, is_tax_relevant := req.isTaxRelevant,
                  tx_date := req.txDate, transfer_group_id := some newGid,
                  transfer_leg := some TransferLeg.OUT, invoice_id := none,
                  created_at := db.nextSerial },
                { id := genTxId (db.nextSerial + 1), user_id := userId,
                  account_id := some toId, from_account_id := none,
                  to_account_id := none, amount := |req.amount|,
                  description := req.description,
                  category := some (req.category.getD "Transfer"), tags := req.tags,
                  is_business := req.isBusiness, is_tax_relevant := req.isTaxRelevant,
                  tx_date := req.txDate, transfer_group_id := some newGid,
                  transfer_leg := some TransferLeg.IN, invoice_id := none,
                  created_at := db.nextSerial + 1 }]
             nextSerial := db.nextSerial + 2 }) := by
    intro db userId req newGid faults fromId toId hkind hfrom hto hvalid hown hf1 hf2
    simp only [postTransactions]
    rw [if_neg (not_not_intro hvalid), if_neg (not_not_intro hown)]
    simp [hkind, hfrom, hto, hf1, hf2]
  refine ⟨hsuccess, ?_, ?_, ?_, ?_⟩
  · intro db userId req newGid faults hkind heq
    have hv : validCreateTx req = false := by
      simp [validCreateTx, hkind, heq]
    simp only [postTransactions]
    rw [if_pos (by simp [hv])]
  · intro db userId req newGid faults hkind hle
    have hnlt : ¬ (0 < req.amount) := not_lt.mpr hle
    have hv : validCreateTx req = false := by
      simp [validCreateTx, hkind, hnlt]
    simp only [postTransactions]
    rw [if_pos (by simp [hv])]
  · intro db userId req newGid faults fromId toId hkind hfrom hto hvalid hown hf1 hf2 hfresh
    rw [hsuccess db userId req newGid faults fromId toId hkind hfrom hto hvalid hown hf1 hf2]
    have hold : db.transactions.filter (fun t => t.transfer_group_id == some newGid) = [] := by
      rw [List.filter_eq_nil_iff]
      intro t ht
      simpa using hfresh t ht
    simp [List.filter_append, hold]
  · intro db userId req newGid faults hkind hor
    by_cases hv : validCreateTx req = true
    · simp only [postTransactions]
      rw [if_neg (not_not_intro hv)]
      by_cases how : ownedCount db userId
          ([req.accountId, req.fromAccountId, req.toAccountId].filterMap (fun o => o))
        = ([req.accountId, req.fromAccountId, req.toAccountId].filterMap
            (fun o => o)).length
      · rw [if_neg (not_not_intro how)]
        rcases hor with h1 | h2
        · simp [hkind, h1]
        · by_cases hf1 : faults.firstWriteFails = true
          · simp [hkind, hf1]
          · simp [hkind, (Bool.not_eq_true _).mp hf1, h2]
      · rw [if_pos how]
    · simp only [postTransactions]
      rw [if_pos hv]

/-- The concrete valid transfer request: 150 from A to B on
2025-06-05. -/
def c4Req : CreateTxReq :=
  { kind := TxKind.TRANSFER, accountId := none, fromAccountId := some "A",
    toAccountId := some "B", amount := 150, description := "Move",
    category := none, tags := [], isBusiness := false, isTaxRelevant := false,
    txDate := ⟨2025, 6, 5⟩ }

/-- C4 witness: the successful concrete transfer appends exactly two
rows. -/
theorem c4_transfer_creation_witness :
    (postTransactions c10Db "u1" c4Req "g9" ⟨false, false⟩).2.transactions.length
      = c10Db.transactions.length + 2 := by
  rw [c4_transfer_creation.1 c10Db "u1" c4Req "g9" ⟨false, false⟩ "A" "B" rfl rfl rfl
    (by decide) (by decide) rfl rfl]
  decide

/-! ## Claim C3 -/

theorem head_filter_map_update (l : List Invoice) (userId invoiceId : String)
    (f : Invoice → Invoice)
    (hf : ∀ i : Invoice, (f i).user_id = i.user_id ∧ (f i).id = i.id) :
    ((l.map (fun i => if i.user_id == userId && i.id == invoiceId then f i else i)).filter
        (fun i => i.user_id == userId && i.id == invoiceId)).head?
      = ((l.filter (fun i => i.user_id == userId && i.id == invoiceId)).head?).map f := by
  induction l with
  | nil => rfl
  | cons i t ih =>
    by_cases hp : (i.user_id == userId && i.id == invoiceId) = true
    · have hp2 : ((f i).user_id == userId && (f i).id == invoiceId) = true := by
        rcases hf i with ⟨h1, h2⟩
        simpa [h1, h2] using hp
      have hgi : (if (i.user_id == userId && i.id == invoiceId) = true then f i else i)
          = f i := if_pos hp
      rw [List.map_cons, hgi, List.filter_cons, List.filter_cons, if_pos hp2, if_pos hp]
      rfl
    · have hgi : (if (i.user_id == userId && i.id == invoiceId) = true then f i else i)
          = i := if_neg hp
      rw [List.map_cons, hgi, List.filter_cons, List.filter_cons, if_neg hp, if_neg hp]
      exact ih

theorem postMarkPaid_success (db : Db) (userId invoiceId : String) (req : MarkPaidReq)
    (inv : Invoice) (faults : LedgerFaults)
    (hfind : findInvoice db userId invoiceId = some inv)
    (hstatus : inv.status = InvoiceStatus.planned ∨ inv.status = InvoiceStatus.sent)
    (hf1 : faults.firstWriteFails = false) (hf2 : faults.secondWriteFails = false) :
    postMarkPaid db userId invoiceId req faults
      = (MarkPaidResp.paidOk invoiceId (genTxId db.nextSerial),
         { db with
           transactions := db.transactions ++
             [{ id := genTxId db.nextSerial, user_id := userId,
                account_id := some req.accountId, from_account_id := none,
                to_account_id := none, amount := inv.amount,
                description := markPaidDescription req inv,
                category := some req.category, tags := req.tags,
                is_business := req.isBusiness, is_tax_relevant := req.isTaxRelevant,
                tx_date := req.txDate, transfer_group_id := none, transfer_leg := none,
                invoice_id := some invoiceId, created_at := db.nextSerial }]
           invoices := db.invoices.map (fun i =>
             if i.user_id == userId && i.id == invoiceId then
               { i with
                 status := InvoiceStatus.paid
                 paid_at := some req.txDate
                 paid_tx_id := some (genTxId db.nextSerial) }
             else i)
           nextSerial := db.nextSerial + 1 }) := by
  rcases hstatus with hs | hs <;>
    simp [postMarkPaid, hfind, hs, hf1, hf2]

/-- C3: the first mark-paid call on a planned/sent invoice succeeds,
appends exactly one positive income transaction linked to the invoice,
and flips the invoice row to paid with `paid_tx_id` pointing at that
transaction; the second call answers "Already paid" and changes nothing;
and any failing step of the unit of work leaves the store untouched. -/
theorem c3_mark_paid_twice :
    (∀ (db : Db) (userId invoiceId : String) (req : MarkPaidReq) (inv : Invoice)
        (faults faults2 : LedgerFaults),
      findInvoice db userId invoiceId = some inv →
      (inv.status = InvoiceStatus.planned ∨ inv.status = InvoiceStatus.sent) →
      0 < inv.amount →
      faults.firstWriteFails = false →
      faults.secondWriteFails = false →
      ((postMarkPaid db userId invoiceId req faults).1
          = MarkPaidResp.paidOk invoiceId (genTxId db.nextSerial) ∧
        (postMarkPaid db userId invoiceId req faults).2.transactions
          = db.transactions ++
            [{ id := genTxId db.nextSerial, user_id := userId,
               account_id := some req.accountId, from_account_id := none,
               to_account_id := none, amount := inv.amount,
               description := markPaidDescription req inv,
               category := some req.category, tags := req.tags,
               is_business := req.isBusiness, is_tax_relevant := req.isTaxRelevant,
               tx_date := req.txDate, transfer_group_id := none, transfer_leg := none,
               invoice_id := some invoiceId, created_at := db.nextSerial }] ∧
        findInvoice (postMarkPaid db userId invoiceId req faults).2 userId invoiceId
          = some { inv with
                   status := InvoiceStatus.paid
                   paid_at := some req.txDate
                   paid_tx_id := some (genTxId db.nextSerial) } ∧
        postMarkPaid (postMarkPaid db userId invoiceId req faults).2 userId invoiceId
            req faults2
          = (MarkPaidResp.alreadyPaid, (postMarkPaid db userId invoiceId req faults).2))) ∧
    (∀ (db : Db) (userId invoiceId : String) (req : MarkPaidReq) (faults : LedgerFaults),
      faults.firstWriteFails = true ∨ faults.secondWriteFails = true →
      (postMarkPaid db userId invoiceId req faults).2 = db) := by
  constructor
  · intro db userId invoiceId req inv faults faults2 hfind hstatus hamt hf1 hf2
    have hs := postMarkPaid_success db userId invoiceId req inv faults hfind hstatus hf1 hf2
    have hfind2 : findInvoice (postMarkPaid db userId invoiceId req faults).2 userId
        invoiceId
        = some { inv with
                 status := InvoiceStatus.paid
                 paid_at := some req.txDate
                 paid_tx_id := some (genTxId db.nextSerial) } := by
      rw [hs]
      show ((db.invoices.map _).filter _).head? = _
      rw [head_filter_map_update db.invoices userId invoiceId
        (fun i => { i with
          status := InvoiceStatus.paid
          paid_at := some req.txDate
          paid_tx_id := some (genTxId db.nextSerial) }) (fun i => ⟨rfl, rfl⟩)]
      have hfind0 : (db.invoices.filter
          (fun i => i.user_id == userId && i.id == invoiceId)).head? = some inv := hfind
      rw [hfind0]
      rfl
    refine ⟨by rw [hs], by rw [hs], hfind2, ?_⟩
    set db2 := (postMarkPaid db userId invoiceId req faults).2 with hdb2
    simp only [postMarkPaid]
    rw [hfind2]
    simp
  · intro db userId invoiceId req faults hor
    rcases hfi : findInvoice db userId invoiceId with _ | inv
    · simp [postMarkPaid, hfi]
    · by_cases hv : (inv.status == InvoiceStatus.voided) = true
      · simp [postMarkPaid, hfi, hv]
      · by_cases hpd : (inv.status == InvoiceStatus.paid) = true
        · simp [postMarkPaid, hfi, (Bool.not_eq_true _).mp hv, hpd]
        · rcases hor with h1 | h2
          · simp [postMarkPaid, hfi, (Bool.not_eq_true _).mp hv,
              (Bool.not_eq_true _).mp hpd, h1]
          · by_cases hf1 : faults.firstWriteFails = true
            · simp [postMarkPaid, hfi, (Bool.not_eq_true _).mp hv,
                (Bool.not_eq_true _).mp hpd, hf1]
            · simp [postMarkPaid, hfi, (Bool.not_eq_true _).mp hv,
                (Bool.not_eq_true _).mp hpd, (Bool.not_eq_true _).mp hf1, h2]

/-- The sent invoice of the double-payment scenario. -/
def c3Invoice : Invoice :=
  { id := "inv1", user_id := "u1", customer_name := "ACME", amount := 500,
    currency := "EUR", expected_payment_date := some ⟨2025, 7, 15⟩,
    status := InvoiceStatus.sent, paid_at := none, paid_tx_id := none,
    created_at := 0 }

/-- Store for the double-payment scenario. -/
def c3Db : Db :=
  { accounts := [acctMain]
    transactions := []
    invoices := [c3Invoice]
    salary_settings := []
    recurring := []
    budgets := []
    nextSerial := 0 }

/-- The mark-paid request of the double-payment scenario. -/
def c3Req : MarkPaidReq :=
  { accountId := "a1", txDate := ⟨2025, 7, 20⟩, category := "Income",
    description := none, isBusiness := false, isTaxRelevant := false, tags := [] }

/-- C3 witness: the concrete second call answers "Already paid". -/
theorem c3_mark_paid_twice_witness :
    (postMarkPaid (postMarkPaid c3Db "u1" "inv1" c3Req ⟨false, false⟩).2 "u1" "inv1"
        c3Req ⟨false, false⟩).1 = MarkPaidResp.alreadyPaid := by
  rw [(c3_mark_paid_twice.1 c3Db "u1" "inv1" c3Req c3Invoice ⟨false, false⟩
    ⟨false, false⟩ (by decide) (Or.inr rfl) (by decide) rfl rfl).2.2.2]

/-! ## Claim C6 -/

theorem validCreateTx_transfer_fields (req : CreateTxReq)
    (hk : req.kind = TxKind.TRANSFER) (hv : validCreateTx req = true) :
    ∃ f t : String, req.fromAccountId = some f ∧ req.toAccountId = some t ∧
      f ≠ t ∧ req.accountId = none := by
  rcases hf : req.fromAccountId with _ | f
  · exfalso
    simp [validCreateTx, hk, hf] at hv
  rcases ht : req.toAccountId with _ | t
  · exfalso
    simp [validCreateTx, hk, ht] at hv
  rcases ha : req.accountId with _ | a
  · refine ⟨f, t, rfl, rfl, ?_, rfl⟩
    intro heq
    subst heq
    simp [validCreateTx, hk, hf, ht] at hv
  · exfalso
    simp [validCreateTx, hk, ha] at hv

theorem validCreateTx_normal_fields (req : CreateTxReq)
    (hk : req.kind = TxKind.NORMAL) (hv : validCreateTx req = true) :
    ∃ a : String, req.accountId = some a ∧ req.fromAccountId = none ∧
      req.toAccountId = none := by
  rcases ha : req.accountId with _ | a
  · exfalso
    simp [validCreateTx, hk, ha] at hv
  rcases hf : req.fromAccountId with _ | f
  · rcases ht : req.toAccountId with _ | t
    · exact ⟨a, rfl, rfl, rfl⟩
    · exfalso
      simp [validCreateTx, hk, ht] at hv
  · exfalso
    simp [validCreateTx, hk, hf] at hv

/-- C6 (amended, create paths): a valid create request referencing an
account id that is not owned by the requesting user is answered with the
reference error and no mutation, given the primary-key invariant that
account ids are distinct. -/
theorem createTx_rejects_unowned (db : Db) (userId : String) (req : CreateTxReq)
    (newGid : String) (faults : LedgerFaults) (refId : String)
    (hnodup : (db.accounts.map Account.id).Nodup)
    (hvalid : validCreateTx req = true)
    (hmem : refId ∈ [req.accountId, req.fromAccountId, req.toAccountId].filterMap
      (fun o => o))
    (hno : ∀ a ∈ db.accounts, ¬(a.user_id = userId ∧ a.id = refId)) :
    postTransactions db userId req newGid faults = (CreateTxResp.invalidAccountRef, db) := by
  have hids : ([req.accountId, req.fromAccountId, req.toAccountId].filterMap
      (fun o => o)).Nodup := by
    rcases hk : req.kind
    · obtain ⟨a, ha, hf, ht⟩ := validCreateTx_normal_fields req hk hvalid
      simp [ha, hf, ht]
    · obtain ⟨f, t, hf, ht, hne, ha⟩ := validCreateTx_transfer_fields req hk hvalid
      simp [ha, hf, ht, hne]
  set ids := [req.accountId, req.fromAccountId, req.toAccountId].filterMap
    (fun o => o) with hidsdef
  have hcount : ownedCount db userId ids < ids.length := by
    have hSsub : ∀ x ∈ (db.accounts.filter
        (fun a => a.user_id == userId && ids.contains a.id)).map Account.id,
        x ∈ ids.erase refId := by
      intro x hx
      rcases List.mem_map.mp hx with ⟨a, haS, rfl⟩
      have hmemacc := List.mem_of_mem_filter haS
      have hpa := List.of_mem_filter haS
      have hu : a.user_id = userId := by
        have := (Bool.and_eq_true _ _).mp hpa
        exact eq_of_beq this.1
      have hin : a.id ∈ ids := by
        have := (Bool.and_eq_true _ _).mp hpa
        simpa using this.2
      have hneq : a.id ≠ refId := by
        intro hcon
        exact hno a hmemacc ⟨hu, hcon⟩
      exact (List.mem_erase_of_ne hneq).mpr hin
    have hSnodup : ((db.accounts.filter
        (fun a => a.user_id == userId && ids.contains a.id)).map Account.id).Nodup := by
      exact hnodup.sublist (List.Sublist.map Account.id (List.filter_sublist db.accounts))
    have hle : ((db.accounts.filter
        (fun a => a.user_id == userId && ids.contains a.id)).map Account.id).length
        ≤ (ids.erase refId).length :=
      (List.subperm_of_subset hSnodup hSsub).length_le
    have hlen : (ids.erase refId).length = ids.length - 1 :=
      List.length_erase_of_mem hmem
    have hpos : 0 < ids.length := List.length_pos_of_mem hmem
    have hocount : ownedCount db userId ids
        = ((db.accounts.filter
            (fun a => a.user_id == userId && ids.contains a.id)).map Account.id).length := by
      simp only [ownedCount, List.length_map]
    rw [hocount]
    omega
  simp only [postTransactions]
  rw [if_neg (not_not_intro hvalid), if_pos (Nat.ne_of_lt hcount)]

/-- C6 (amended): normal-transaction and transfer creation reject any
referenced account id not owned by the requesting user before any
mutation (given distinct stored account ids); mark-invoice-paid checks
only invoice ownership and inserts the payment transaction on the
supplied accountId even when no account of the caller carries that id. -/
theorem c6_ownership_checks :
    (∀ (db : Db) (userId : String) (req : CreateTxReq) (newGid : String)
        (faults : LedgerFaults) (refId : String),
      (db.accounts.map Account.id).Nodup →
      validCreateTx req = true →
      refId ∈ [req.accountId, req.fromAccountId, req.toAccountId].filterMap
        (fun o => o) →
      (∀ a ∈ db.accounts, ¬(a.user_id = userId ∧ a.id = refId)) →
      postTransactions db userId req newGid faults
        = (CreateTxResp.invalidAccountRef, db)) ∧
    (∀ (db : Db) (userId invoiceId : String) (req : MarkPaidReq) (inv : Invoice)
        (faults : LedgerFaults),
      findInvoice db userId invoiceId = some inv →
      (inv.status = InvoiceStatus.planned ∨ inv.status = InvoiceStatus.sent) →
      faults.firstWriteFails = false →
      faults.secondWriteFails = false →
      (∀ a ∈ db.accounts, ¬(a.user_id = userId ∧ a.id = req.accountId)) →
      (postMarkPaid db userId invoiceId req faults).1
          = MarkPaidResp.paidOk invoiceId (genTxId db.nextSerial) ∧
        ∃ t : Txn, (postMarkPaid db userId invoiceId req faults).2.transactions
            = db.transactions ++ [t] ∧ t.account_id = some req.accountId) := by
  constructor
  · intro db userId req newGid faults refId hnodup hvalid hmem hno
    exact createTx_rejects_unowned db userId req newGid faults refId hnodup hvalid
      hmem hno
  · intro db userId invoiceId req inv faults hfind hstatus hf1 hf2 hforeign
    have hs := postMarkPaid_success db userId invoiceId req inv faults hfind hstatus
      hf1 hf2
    constructor
    · rw [hs]
    · refine ⟨_, by rw [hs], rfl⟩

/-- The foreign account (owned by user u2) referenced by the rogue
mark-paid request. -/
def acctForeign : Account :=
  { id := "acct-x", user_id := "u2", name := "X", initial_balance := 0 }

/-- The sent invoice of user u1 in the ownership scenario. -/
def c6Invoice : Invoice :=
  { id := "inv2", user_id := "u1", customer_name := "Kunde", amount := 250,
    currency := "EUR", expected_payment_date := none, status := InvoiceStatus.sent,
    paid_at := none, paid_tx_id := none, created_at := 0 }

/-- Store where the only account belongs to another user. -/
def c6Db : Db :=
  { accounts := [acctForeign]
    transactions := []
    invoices := [c6Invoice]
    salary_settings := []
    recurring := []
    budgets := []
    nextSerial := 0 }

/-- Mark-paid request naming the foreign account. -/
def c6Req : MarkPaidReq :=
  { accountId := "acct-x", txDate := ⟨2025, 8, 1⟩, category := "Income",
    description := none, isBusiness := false, isTaxRelevant := false, tags := [] }

/-- C6 counterexample: user u1 owns no account `acct-x`, yet mark-paid
succeeds and inserts the payment transaction on `acct-x` — the claimed
ownership rejection does not happen on this write path. -/
theorem c6_counterexample :
    (c6Db.accounts.all (fun a => !(a.user_id == "u1" && a.id == "acct-x"))) = true ∧
    (postMarkPaid c6Db "u1" "inv2" c6Req ⟨false, false⟩).1
        = MarkPaidResp.paidOk "inv2" "tx-0" ∧
    ((postMarkPaid c6Db "u1" "inv2" c6Req ⟨false, false⟩).2.transactions.map
        (fun t => t.account_id)) = [some "acct-x"] := by
  exact ⟨by decide, by decide, by decide⟩

/-- C6 witness: the create path rejects a transfer naming the foreign
account, leaving the store unchanged. -/
theorem c6_ownership_checks_witness :
    postTransactions c6Db "u1" c4Req "g7" ⟨false, false⟩
      = (CreateTxResp.invalidAccountRef, c6Db) :=
  c6_ownership_checks.1 c6Db "u1" c4Req "g7" ⟨false, false⟩ "A" (by decide) (by decide)
    (by decide) (by decide)

/-! ## Calendar lemmas -/

theorem daysInMonth_ge28 (y : Int) (m : Nat) : 28 ≤ daysInMonth y m := by
  unfold daysInMonth
  split_ifs <;> omega

theorem daysInMonth_le31 (y : Int) (m : Nat) : daysInMonth y m ≤ 31 := by
  unfold daysInMonth
  split_ifs <;> omega

theorem rollForwardFuel_base (fuel : Nat) (y : Int) (m : Nat) (d : Nat)
    (hfuel : 0 < fuel) (hle : d ≤ daysInMonth y m) :
    rollForwardFuel fuel y m d = ⟨y, m, d⟩ := by
  cases fuel with
  | zero => omega
  | succ n => simp [rollForwardFuel, hle]

theorem setUTCDateRoll_self (y : Int) (m : Nat) (d : Nat) (h1 : 0 < d)
    (h2 : d ≤ daysInMonth y m) : setUTCDateRoll y m d = ⟨y, m, d⟩ :=
  rollForwardFuel_base d y m d h1 h2

theorem setUTCDateRoll_over (y : Int) (m : Nat) (d : Nat)
    (hlt : daysInMonth y m < d) (hle : d ≤ daysInMonth y m + 28) :
    setUTCDateRoll y m d
      = ⟨(if 12 ≤ m then y + 1 else y), (if 12 ≤ m then 1 else m + 1),
         d - daysInMonth y m⟩ := by
  have h28 := daysInMonth_ge28 y m
  cases d with
  | zero => omega
  | succ n =>
    show rollForwardFuel (n + 1) y m (n + 1) = _
    rw [rollForwardFuel]
    rw [if_neg (by omega)]
    by_cases hm : 12 ≤ m
    · rw [if_pos hm, rollForwardFuel_base n (y + 1) 1 (n + 1 - daysInMonth y m)
        (by omega) (by have := daysInMonth_ge28 (y + 1) 1; omega)]
      simp [hm]
    · rw [if_neg hm, rollForwardFuel_base n y (m + 1) (n + 1 - daysInMonth y m)
        (by omega) (by have := daysInMonth_ge28 y (m + 1); omega)]
      simp [hm]

theorem ltb_monthEnd_roll (y : Int) (m : Nat) (d : Nat)
    (hlt : daysInMonth y m < d) (hle : d ≤ daysInMonth y m + 28) :
    Ymd.ltb ⟨y, m, daysInMonth y m⟩ (setUTCDateRoll y m d) = true := by
  rw [setUTCDateRoll_over y m d hlt hle]
  by_cases hm : 12 ≤ m <;> simp [Ymd.ltb, hm]

theorem mkPlanWindow_valid (y : Int) (m : Nat) (h1 : 1 ≤ m) (h2 : m ≤ 12) :
    mkPlanWindow y m
      = { y := y, m := m, dim := daysInMonth y m, monthStart := ⟨y, m, 1⟩,
          monthEnd := ⟨y, m, daysInMonth y m⟩ } := by
  have hnn : (0 : Int) ≤ (m : Int) - 1 := by omega
  have hlt12 : ((m : Int) - 1) < 12 := by omega
  have he : Int.ediv ((m : Int) - 1) 12 = 0 := Int.ediv_eq_zero_of_lt hnn hlt12
  have hmo : Int.emod ((m : Int) - 1) 12 = (m : Int) - 1 := Int.emod_eq_of_lt hnn hlt12
  have ht : ((m : Int) - 1).toNat = m - 1 := by omega
  have hm1 : m - 1 + 1 = m := by omega
  simp [mkPlanWindow, daysInMonthJs, normYM, he, hmo, ht, hm1]

theorem weeklyDates_valid (y : Int) (m : Nat) (h1 : 1 ≤ m) (h2 : m ≤ 12) :
    weeklyDates (mkPlanWindow y m)
      = [⟨y, m, 1⟩, ⟨y, m, 8⟩, ⟨y, m, 15⟩, ⟨y, m, 22⟩] ++
          (if 29 ≤ daysInMonth y m then [⟨y, m, 29⟩] else []) := by
  have h28 := daysInMonth_ge28 y m
  have h31 := daysInMonth_le31 y m
  rw [weeklyDates, mkPlanWindow_valid y m h1 h2,
    show List.range 6 = [0, 1, 2, 3, 4, 5] from rfl]
  have r1 : setUTCDateRoll y m 1 = ⟨y, m, 1⟩ :=
    setUTCDateRoll_self y m 1 (by omega) (by omega)
  have r8 : setUTCDateRoll y m 8 = ⟨y, m, 8⟩ :=
    setUTCDateRoll_self y m 8 (by omega) (by omega)
  have r15 : setUTCDateRoll y m 15 = ⟨y, m, 15⟩ :=
    setUTCDateRoll_self y m 15 (by omega) (by omega)
  have r22 : setUTCDateRoll y m 22 = ⟨y, m, 22⟩ :=
    setUTCDateRoll_self y m 22 (by omega) (by omega)
  have c1 : Ymd.ltb ⟨y, m, daysInMonth y m⟩ ⟨y, m, 1⟩ = false := by
    simp [Ymd.ltb]
    omega
  have c8 : Ymd.ltb ⟨y, m, daysInMonth y m⟩ ⟨y, m, 8⟩ = false := by
    simp [Ymd.ltb]
    omega
  have c15 : Ymd.ltb ⟨y, m, daysInMonth y m⟩ ⟨y, m, 15⟩ = false := by
    simp [Ymd.ltb]
    omega
  have c22 : Ymd.ltb ⟨y, m, daysInMonth y m⟩ ⟨y, m, 22⟩ = false := by
    simp [Ymd.ltb]
    omega
  by_cases h29 : 29 ≤ daysInMonth y m
  · have r29 : setUTCDateRoll y m 29 = ⟨y, m, 29⟩ :=
      setUTCDateRoll_self y m 29 (by omega) (by omega)
    have c29 : Ymd.ltb ⟨y, m, daysInMonth y m⟩ ⟨y, m, 29⟩ = false := by
      simp [Ymd.ltb]
      omega
    have c36 : Ymd.ltb ⟨y, m, daysInMonth y m⟩ (setUTCDateRoll y m 36) = true :=
      ltb_monthEnd_roll y m 36 (by omega) (by omega)
    simp [weeklyGo, r1, r8, r15, r22, r29, c1, c8, c15, c22, c29, c36, h29]
  · have c29 : Ymd.ltb ⟨y, m, daysInMonth y m⟩ (setUTCDateRoll y m 29) = true :=
      ltb_monthEnd_roll y m 29 (by omega) (by omega)
    simp [weeklyGo, r1, r8, r15, r22, c1, c8, c15, c22, c29, h29]

/-! ## Claim C8 -/

/-- C8: a WEEKLY rule expands to events exactly on the window's start
date and every 7 days thereafter — days 1, 8, 15, 22 and, when the month
is long enough, 29 — stopping as soon as a generated date passes the
month's end, never more than 6 occurrences, each carrying the rule's
signed amount verbatim. -/
theorem c8_weekly_expansion :
    ∀ (y : Int) (m : Nat) (r : RecurringRule),
      1 ≤ m → m ≤ 12 →
      r.interval_type = RecurInterval.WEEKLY →
      (expandRecurring (mkPlanWindow y m) r
        = (([⟨y, m, 1⟩, ⟨y, m, 8⟩, ⟨y, m, 15⟩, ⟨y, m, 22⟩] : List Ymd) ++
            (if 29 ≤ daysInMonth y m then [(⟨y, m, 29⟩ : Ymd)] else [])).map
            (fun ds =>
              { date := ds
                kind := PlanGetKind.RECURRING
                title := r.description
                amount := r.amount
                meta := { recurringId := some r.id, budgetId := none,
                          category := r.category,
                          accountId := some r.account_id } })) ∧
      (expandRecurring (mkPlanWindow y m) r).length ≤ 6 ∧
      (∀ e ∈ expandRecurring (mkPlanWindow y m) r, e.amount = r.amount) := by
  intro y m r h1 h2 hW
  have hexp : expandRecurring (mkPlanWindow y m) r
      = (weeklyDates (mkPlanWindow y m)).map
        (fun ds =>
          { date := ds
            kind := PlanGetKind.RECURRING
            title := r.description
            amount := r.amount
            meta := { recurringId := some r.id, budgetId := none,
                      category := r.category,
                      accountId := some r.account_id } }) := by
    simp [expandRecurring, hW]
  refine ⟨?_, ?_, ?_⟩
  · rw [hexp, weeklyDates_valid y m h1 h2]
  · rw [hexp, weeklyDates_valid y m h1 h2]
    by_cases h29 : 29 ≤ daysInMonth y m <;> simp [h29]
  · intro e he
    rw [hexp] at he
    rcases List.mem_map.mp he with ⟨ds, -, rfl⟩
    rfl

/-- The WEEKLY rule of the expansion scenario. -/
def c8Rule : RecurringRule :=
  { id := "r2", user_id := "u1", account_id := "a1", amount := -20,
    description := "Gym", category := some "Sport",
    interval_type := RecurInterval.WEEKLY, day_of_month := none,
    start_date := ⟨2024, 1, 1⟩, end_date := none }

/-- C8 witness: the concrete February 2025 expansion (28-day month, four
occurrences). -/
theorem c8_weekly_expansion_witness :
    expandRecurring (mkPlanWindow 2025 2) c8Rule
      = (([⟨2025, 2, 1⟩, ⟨2025, 2, 8⟩, ⟨2025, 2, 15⟩, ⟨2025, 2, 22⟩] : List Ymd) ++
          (if 29 ≤ daysInMonth 2025 2 then [(⟨2025, 2, 29⟩ : Ymd)] else [])).map
          (fun ds =>
            { date := ds
              kind := PlanGetKind.RECURRING
              title := c8Rule.description
              amount := c8Rule.amount
              meta := { recurringId := some c8Rule.id, budgetId := none,
                        category := c8Rule.category,
                        accountId := some c8Rule.account_id } }) :=
  (c8_weekly_expansion 2025 2 c8Rule (by decide) (by decide) rfl).1

/-! ## Claim C7 -/

theorem lastDayOfMonthUTC_feb (yy : Int) : lastDayOfMonthUTC yy 1 = daysInMonth yy 2 := by
  have he : Int.ediv 1 12 = 0 := by decide
  have hm : Int.emod 1 12 = 1 := by decide
  simp [lastDayOfMonthUTC, normYM, he, hm]

theorem dateUTC_feb (yy : Int) (d : Nat) (h1 : 0 < d) (h2 : d ≤ daysInMonth yy 2) :
    dateUTC yy 1 d = ⟨yy, 2, d⟩ := by
  have he : Int.ediv 1 12 = 0 := by decide
  have hm : Int.emod 1 12 = 1 := by decide
  simp only [dateUTC, normYM, he, hm]
  norm_num
  exact setUTCDateRoll_self yy 2 d h1 h2

theorem daysInMonth_feb (yy : Int) : daysInMonth yy 2 = 28 ∨ daysInMonth yy 2 = 29 := by
  by_cases hl : isLeapYear yy = true <;> simp [daysInMonth, hl]

/-- The MONTHLY day-31 rule of the February clamping scenario. -/
def c7Rule : RecurringRule :=
  { id := "r1", user_id := "u1", account_id := "a1", amount := -50,
    description := "Miete", category := some "Wohnen",
    interval_type := RecurInterval.MONTHLY, day_of_month := some 31,
    start_date := ⟨2024, 1, 1⟩, end_date := none }

/-- Store for the February clamping scenario. -/
def c7Db : Db :=
  { accounts := [acctMain]
    transactions := []
    invoices := []
    salary_settings := []
    recurring := [c7Rule]
    budgets := []
    nextSerial := 0 }

/-- C7: a MONTHLY rule with day-of-month 31 projected into February
emits exactly one event on February's last valid day (28, or 29 in a
leap year) with the rule's amount; a salary setting with payout day 31
does likewise; and the concrete day-31/−50 rule projected for "2025-02"
yields exactly one event dated 2025-02-28 with amount −50. -/
theorem c7_monthly_clamp_feb :
    (∀ (y : Int) (r : RecurringRule),
      r.interval_type = RecurInterval.MONTHLY →
      r.day_of_month = some 31 →
      (expandRecurring (mkPlanWindow y 2) r
        = [{ date := ⟨y, 2, daysInMonth y 2⟩
             kind := PlanGetKind.RECURRING
             title := r.description
             amount := r.amount
             meta := { recurringId := some r.id, budgetId := none,
                       category := r.category,
                       accountId := some r.account_id } }]) ∧
      (daysInMonth y 2 = 28 ∨ daysInMonth y 2 = 29)) ∧
    (∀ (db : Db) (userId : String) (mb : MonthBounds) (s : SalarySetting),
      activeSalary db userId = some s →
      s.payout_day = 31 →
      mb.monthIndex0 = 1 →
      (salaryPlanEvents db userId mb
        = [{ id := "salary:" ++ s.id ++ ":"
               ++ ymdString ⟨mb.year, 2, daysInMonth mb.year 2⟩
             date := ⟨mb.year, 2, daysInMonth mb.year 2⟩
             amount := s.net_amount
             title := "Gehalt"
             source := PlanSourceTag.salary
             invoiceId := none }]) ∧
      (daysInMonth mb.year 2 = 28 ∨ daysInMonth mb.year 2 = 29)) ∧
    ((planGetRoute c7Db "u1" (some "2025-02")).map
        (fun resp => resp.days.foldr (fun day acc => day.events ++ acc) [])
      = some [{ date := ⟨2025, 2, 28⟩
                kind := PlanGetKind.RECURRING
                title := "Miete"
                amount := -50
                meta := { recurringId := some "r1", budgetId := none,
                          category := some "Wohnen",
                          accountId := some "a1" } }]) := by
  refine ⟨?_, ?_, by decide⟩
  · intro y r hM hdom
    have hdim := daysInMonth_feb y
    have h31 : daysInMonth y 2 ≤ 31 := daysInMonth_le31 y 2
    have hmin : min 31 (daysInMonth y 2) = daysInMonth y 2 := min_eq_right h31
    refine ⟨?_, hdim⟩
    rw [mkPlanWindow_valid y 2 (by omega) (by omega)]
    simp [expandRecurring, hM, hdom, hmin]
  · intro db userId mb s hact hpayout hmidx
    have hdim := daysInMonth_feb mb.year
    have h28 : 28 ≤ daysInMonth mb.year 2 := daysInMonth_ge28 mb.year 2
    have h31 : daysInMonth mb.year 2 ≤ 31 := daysInMonth_le31 mb.year 2
    have hlast : lastDayOfMonthUTC mb.year mb.monthIndex0 = daysInMonth mb.year 2 := by
      rw [hmidx, lastDayOfMonthUTC_feb]
    have hd : (min (max s.payout_day 1) ((lastDayOfMonthUTC mb.year mb.monthIndex0 : Nat) :
        Int)).toNat = daysInMonth mb.year 2 := by
      rw [hlast, hpayout]
      have hmax : max (31 : Int) 1 = 31 := by norm_num
      rw [hmax]
      have hminle : ((daysInMonth mb.year 2 : Nat) : Int) ≤ 31 := by exact_mod_cast h31
      rw [min_eq_right hminle]
      omega
    have hdate : dateUTC mb.year mb.monthIndex0 (daysInMonth mb.year 2)
        = ⟨mb.year, 2, daysInMonth mb.year 2⟩ := by
      rw [hmidx]
      exact dateUTC_feb mb.year (daysInMonth mb.year 2) (by omega) (le_refl _)
    refine ⟨?_, hdim⟩
    simp only [salaryPlanEvents, hact, hd, hdate]

/-- C7 witness: the day-31 rule expanded into February 2025. -/
theorem c7_monthly_clamp_feb_witness :
    expandRecurring (mkPlanWindow 2025 2) c7Rule
      = [{ date := ⟨2025, 2, daysInMonth 2025 2⟩
           kind := PlanGetKind.RECURRING
           title := c7Rule.description
           amount := c7Rule.amount
           meta := { recurringId := some c7Rule.id, budgetId := none,
                     category := c7Rule.category,
                     accountId := some c7Rule.account_id } }] :=
  (c7_monthly_clamp_feb.1 2025 c7Rule rfl rfl).1

/-! ## Stable-sort permutation lemmas -/

theorem insertSortedBy_perm {α : Type} (le : α → α → Bool) (x : α) :
    ∀ l : List α, (insertSortedBy le x l).Perm (x :: l) := by
  intro l
  induction l with
  | nil => simp [insertSortedBy]
  | cons z zs ih =>
    by_cases h : le z x = true
    · rw [insertSortedBy, if_pos h]
      exact (ih.cons z).trans (List.Perm.swap x z zs)
    · rw [insertSortedBy, if_neg h]

theorem stableSortBy_perm {α : Type} (le : α → α → Bool) (l : List α) :
    (stableSortBy le l).Perm l := by
  suffices h : ∀ (l2 acc : List α),
      (l2.foldl (fun a x => insertSortedBy le x a) acc).Perm (acc ++ l2) by
    simpa using h l []
  intro l2
  induction l2 with
  | nil => intro acc; simp
  | cons x t ih =>
    intro acc
    refine (ih (insertSortedBy le x acc)).trans ?_
    refine (((insertSortedBy_perm le x acc).append_right t).trans ?_)
    exact (List.perm_middle).symm

/-! ## Claim C2 -/

theorem planFold_events (events : List PlanMonthEvent) :
    ∀ (days : List PlanDay),
      ∀ day ∈ events.foldl (fun ds e => addPlanEvent e ds) days,
        ∃ day0 ∈ days, day.date = day0.date ∧
          day.events = day0.events ++ events.filter (fun e => e.date == day.date) := by
  induction events with
  | nil =>
    intro days day hday
    exact ⟨day, hday, rfl, by simp⟩
  | cons e es ih =>
    intro days day hday
    obtain ⟨day1, hday1, hdate1, hev1⟩ := ih (addPlanEvent e days) day hday
    rw [addPlanEvent] at hday1
    obtain ⟨day0, hday0, hupd⟩ := List.mem_map.mp hday1
    by_cases hc : (day0.date == e.date) = true
    · have hce : day0.date = e.date := eq_of_beq hc
      have hc2 : (e.date == day0.date) = true := by
        rw [hce]
        exact beq_self_eq_true _
      rw [if_pos (by rw [beq_iff_eq]; exact hce.symm ▸ rfl)] at hupd
      refine ⟨day0, hday0, ?_, ?_⟩
      · rw [hdate1, ← hupd]
      · have hdd : day.date = day0.date := by rw [hdate1, ← hupd]
        rw [List.filter_cons, if_pos (by rw [beq_iff_eq, hdd, hce])]
        rw [hev1, ← hupd]
        simp
    · rw [if_neg hc] at hupd
      refine ⟨day0, hday0, by rw [hdate1, ← hupd], ?_⟩
      have hdd : day.date = day0.date := by rw [hdate1, ← hupd]
      have hne : (e.date == day.date) = false := by
        rw [beq_eq_false_iff_ne]
        intro hcon
        rw [hdd] at hcon
        rw [← hcon] at hc
        simp at hc
      rw [List.filter_cons, if_neg (by rw [hne]; simp), hev1, ← hupd]

/-- C2 (amended): the event lists of `buildCashflowPlanMonth`'s days are
exactly the salary and invoice expected-payment events bucketed by date —
only two of the claim's four sources; the recurring-rule and
budget-reserve events (one per budget whose `period_start` falls in the
month, amount `-planned_amount`) are produced by the separate
recurring/budget plan route, whose event list indeed contains that
reserve event for every such budget. -/
theorem c2_plan_sources_split :
    (∀ (db : Db) (userId month : String),
      ∀ day ∈ (buildCashflowPlanMonth db userId month).days,
        day.events
          = (salaryPlanEvents db userId (monthBounds month) ++
              invoicePlanEvents db userId (monthBounds month)).filter
              (fun e => e.date == day.date)) ∧
    (∀ (db : Db) (userId : String) (w : PlanWindow) (b : Budget),
      b ∈ db.budgets → b.user_id = userId →
      Ymd.leb b.period_start w.monthEnd = true →
      Ymd.leb w.monthStart b.period_end = true →
      b.period_start.y = w.y → b.period_start.m = w.m →
      ({ date := b.period_start
         kind := PlanGetKind.BUDGET_RESERVE
         title := "Budget: " ++ b.name
         amount := -b.planned_amount
         meta := { recurringId := none, budgetId := some b.id,
                   category := some b.category, accountId := b.account_id } }
        : PlanGetEvent) ∈ planGetEvents db userId w) := by
  constructor
  · intro db userId month day hday
    have hday2 : day ∈ (planMonthEvents db userId (monthBounds month)).foldl
        (fun ds e => addPlanEvent e ds)
        ((List.range (lastDayOfMonthUTC (monthBounds month).year
            (monthBounds month).monthIndex0)).map (fun i =>
          { date := dateUTC (monthBounds month).year (monthBounds month).monthIndex0
              (i + 1)
            income := 0, expense := 0, net := 0, events := [] })) :=
      (stableSortBy_perm _ _).mem_iff.mp hday
    obtain ⟨day0, hday0, hdate, hev⟩ := planFold_events _ _ day hday2
    have h0 : day0.events = [] := by
      rcases List.mem_map.mp hday0 with ⟨i, -, rfl⟩
      rfl
    rw [hev, h0, List.nil_append]
    rfl
  · intro db userId w b hbmem hbuser hble1 hble2 hy hm
    apply (stableSortBy_perm _ _).mem_iff.mpr
    apply List.mem_append.mpr
    right
    apply List.mem_filterMap.mpr
    refine ⟨b, ?_, ?_⟩
    · exact List.mem_filter.mpr ⟨hbmem, by simp [hbuser, hble1, hble2]⟩
    · rw [if_pos (by simp [hy, hm])]

/-- The budget of the missing-source scenario: `period_start` inside
March 2025. -/
def c2Budget : Budget :=
  { id := "b1", user_id := "u1", name := "Groceries", category := "Food",
    planned_amount := 100, used_amount := 0, period_type := BudgetPeriod.MONTHLY,
    period_start := ⟨2025, 3, 5⟩, period_end := ⟨2025, 3, 31⟩, account_id := none }

/-- Store with one budget and nothing else. -/
def c2Db : Db :=
  { accounts := []
    transactions := []
    invoices := []
    salary_settings := []
    recurring := []
    budgets := [c2Budget]
    nextSerial := 0 }

/-- C2 counterexample: with one budget whose `period_start` falls in
March 2025, `buildCashflowPlanMonth` returns no event at all — its event
list is not the four-source concatenation, which would contain the
−100 budget-reserve event that the separate plan route does produce. -/
theorem c2_counterexample :
    ((buildCashflowPlanMonth c2Db "u1" "2025-03").days.all
        (fun day => day.events.isEmpty)) = true ∧
    (buildCashflowPlanMonth c2Db "u1" "2025-03").totals.net = 0 ∧
    budgetPlanGetEvents c2Db "u1" (mkPlanWindow 2025 3)
      = [{ date := ⟨2025, 3, 5⟩
           kind := PlanGetKind.BUDGET_RESERVE
           title := "Budget: Groceries"
           amount := -100
           meta := { recurringId := none, budgetId := some "b1",
                     category := some "Food", accountId := none } }] := by
  exact ⟨by decide, by decide, by decide⟩

/-- C2 witness: the concrete budget's reserve event is in the separate
route's event list. -/
theorem c2_plan_sources_split_witness :
    ({ date := ⟨2025, 3, 5⟩
       kind := PlanGetKind.BUDGET_RESERVE
       title := "Budget: " ++ c2Budget.name
       amount := -c2Budget.planned_amount
       meta := { recurringId := none, budgetId := some c2Budget.id,
                 category := some c2Budget.category,
                 accountId := c2Budget.account_id } } : PlanGetEvent)
      ∈ planGetEvents c2Db "u1" (mkPlanWindow 2025 3) :=
  c2_plan_sources_split.2 c2Db "u1" (mkPlanWindow 2025 3) c2Budget (by decide) rfl
    (by decide) (by decide) rfl rfl

/-! ## Claim C9 -/

/-- An empty store. -/
def emptyDb : Db :=
  { accounts := []
    transactions := []
    invoices := []
    salary_settings := []
    recurring := []
    budgets := []
    nextSerial := 0 }

/-- C9 counterexample: "2025-13" and "2025-00" match the month pattern,
so the plan and actual routes accept them and silently build a
normalized different month (January 2026 and December 2024) instead of
rejecting the request. -/
theorem c9_counterexample :
    monthRegexMatches "2025-13" = true ∧
    ((cashflowPlanRoute emptyDb "u1" (some "2025-13")).map
        (fun r => r.startDate)) = some ⟨2026, 1, 1⟩ ∧
    monthRegexMatches "2025-00" = true ∧
    ((cashflowActualRoute emptyDb "u1" (some "2025-00") none).map
        (fun r => r.startDate)) = some ⟨2024, 12, 1⟩ := by
  exact ⟨by decide, by decide, by decide, by decide⟩

/-- C9 (amended): only month strings failing the `^\d{4}-\d{2}$` pattern
(or a missing parameter) are rejected, independently of the store, with
no data access; pattern-matching strings whose month number is 00 or
above 12 are accepted and the build silently normalizes them to a
different real month (2025-13 → January 2026, 2025-00 → December
2024). -/
theorem c9_month_validation :
    (∀ (s : String) (db : Db) (userId : String) (accId : Option String),
      monthRegexMatches s = false →
      cashflowPlanRoute db userId (some s) = none ∧
        cashflowActualRoute db userId (some s) accId = none) ∧
    (∀ (db : Db) (userId : String) (accId : Option String),
      cashflowPlanRoute db userId none = none ∧
        cashflowActualRoute db userId none accId = none) ∧
    ((monthBounds "2025-13").startDate = ⟨2026, 1, 1⟩ ∧
      (monthBounds "2025-00").startDate = ⟨2024, 12, 1⟩ ∧
      monthRegexMatches "2025-13" = true ∧
      monthRegexMatches "2025-00" = true) := by
  refine ⟨?_, ?_, by decide, by decide, by decide, by decide⟩
  · intro s db userId accId hreg
    constructor
    · simp [cashflowPlanRoute, hreg]
    · simp [cashflowActualRoute, hreg]
  · intro db userId accId
    exact ⟨rfl, rfl⟩

/-- C9 witness: the malformed month string "2025-1" is rejected by both
routes. -/
theorem c9_month_validation_witness :
    cashflowPlanRoute emptyDb "u1" (some "2025-1") = none ∧
      cashflowActualRoute emptyDb "u1" (some "2025-1") none = none :=
  c9_month_validation.1 "2025-1" emptyDb "u1" none (by decide)
